import Mathlib

/-!
# XRA1405_Button: debounce, press counting and double-click detection

A shallow embedding of `XRA1405_Button.cpp` / `XRA1405_Button.hpp`.

* The object state of `class XRA1405_MyButton` is the structure `XRA1405_MyButton`;
  every member function becomes a function from states to states (or to the returned value).
* The two external primitives are passed in as arguments: the level returned by
  `XRA1405_digitalRead` (an `int`, here `Int`) and the value returned by `millis()`.
* `unsigned long` is an unsigned machine integer of `w` bits; `w` is a parameter of every
  function that does arithmetic on it.  Values are natural numbers, reduced `% 2 ^ w`
  where the C++ code can wrap (`_count++`, unsigned subtraction, the value of `millis()`).
-/

/-! ## The embedding: state, member functions, runs and reference notions -/

/-- Arduino level `LOW` (`Arduino.h`). -/
def LOW : Int := 0

/-- Arduino level `HIGH` (`Arduino.h`). -/
def HIGH : Int := 1

/-- Constant `DOUBLE_CLICK_INTERVAL` of `XRA1405_Button.cpp`, in milliseconds. -/
def DOUBLE_CLICK_INTERVAL : Nat := 500

/-- The enumeration `XRA1405_CountMode` of `XRA1405_Button.hpp`. -/
inductive XRA1405_CountMode where
  | XRA1405_COUNT_FALLING
  | XRA1405_COUNT_RISING
  | XRA1405_COUNT_BOTH
  deriving DecidableEq

/-- The enumerator values: `XRA1405_COUNT_FALLING = 0`, `XRA1405_COUNT_RISING = 1`,
`XRA1405_COUNT_BOTH = 2`. -/
def XRA1405_CountMode.toInt : XRA1405_CountMode → Int
  | .XRA1405_COUNT_FALLING => 0
  | .XRA1405_COUNT_RISING => 1
  | .XRA1405_COUNT_BOTH => 2

/-- The private data members of `class XRA1405_MyButton`, in declaration order. -/
structure XRA1405_MyButton where
  _chipSelectPin : Nat
  _button_pin : Nat
  _gpio_mode : Nat
  _debounce_time : Nat
  _count : Nat
  _count_mode : Int
  _previous_steady_state : Int
  _last_steady_state : Int
  _last_flickerable_state : Int
  _last_debounce_time : Nat
  _last_click_time : Nat
  _first_click_detected : Bool
  _loopIntervalMicros : Nat
  _lastUpdateTime : Nat
  deriving DecidableEq

/-- Unsigned subtraction `a - b` on `w`-bit `unsigned long` values. -/
def usub (w a b : Nat) : Nat := (a % 2 ^ w + (2 ^ w - b % 2 ^ w)) % 2 ^ w

/-- The condition of the counting block of `XRA1405_loop` (lines 69-77), evaluated on the
state reached after the debounce block. -/
def XRA1405_MyButton.countCondition (b : XRA1405_MyButton) : Bool :=
  decide (b._previous_steady_state ≠ b._last_steady_state) &&
    (decide (b._count_mode = XRA1405_CountMode.XRA1405_COUNT_BOTH.toInt) ||
      (decide (b._count_mode = XRA1405_CountMode.XRA1405_COUNT_FALLING.toInt) &&
        decide (b._previous_steady_state = HIGH) && decide (b._last_steady_state = LOW)) ||
      (decide (b._count_mode = XRA1405_CountMode.XRA1405_COUNT_RISING.toInt) &&
        decide (b._previous_steady_state = LOW) && decide (b._last_steady_state = HIGH)))

/-- One call of `XRA1405_loop`: `currentState` is the level read from the pin and `now` the
clock value, which `millis()` returns as an `unsigned long`. -/
def XRA1405_MyButton.XRA1405_loop (w : Nat) (b : XRA1405_MyButton) (currentState : Int)
    (now : Nat) : XRA1405_MyButton :=
  let currentTimeMillis := now % 2 ^ w
  let b1 :=
    if currentState ≠ b._last_flickerable_state then
      { b with _last_debounce_time := currentTimeMillis
               _last_flickerable_state := currentState }
    else b
  let b2 :=
    if usub w currentTimeMillis b1._last_debounce_time ≥ b1._debounce_time then
      { b1 with _previous_steady_state := b1._last_steady_state
                _last_steady_state := currentState }
    else b1
  if b2.countCondition then { b2 with _count := (b2._count + 1) % 2 ^ w } else b2

/-- Member `XRA1405_setLoopIntervalMicros`. -/
def XRA1405_MyButton.XRA1405_setLoopIntervalMicros (w : Nat) (b : XRA1405_MyButton)
    (interval : Nat) : XRA1405_MyButton :=
  { b with _loopIntervalMicros := interval % 2 ^ w }

/-- Member `XRA1405_configureDebounceDuration`. -/
def XRA1405_MyButton.XRA1405_configureDebounceDuration (w : Nat) (b : XRA1405_MyButton)
    (time : Nat) : XRA1405_MyButton :=
  { b with _debounce_time := time % 2 ^ w }

/-- Member `XRA1405_getStableState`. -/
def XRA1405_MyButton.XRA1405_getStableState (b : XRA1405_MyButton) : Int :=
  b._last_steady_state

/-- Member `XRA1405_getImmediateState`: the fresh read, converted to `uint8_t`. -/
def XRA1405_MyButton.XRA1405_getImmediateState (_b : XRA1405_MyButton) (pinRead : Int) :
    Int :=
  pinRead % 256

/-- Member `XRA1405_checkPressed`. -/
def XRA1405_MyButton.XRA1405_checkPressed (b : XRA1405_MyButton) : Bool :=
  decide (b._previous_steady_state = HIGH) && decide (b._last_steady_state = LOW)

/-- Member `XRA1405_checkReleased`. -/
def XRA1405_MyButton.XRA1405_checkReleased (b : XRA1405_MyButton) : Bool :=
  decide (b._previous_steady_state = LOW) && decide (b._last_steady_state = HIGH)

/-- Member `XRA1405_configureCountingMode`. -/
def XRA1405_MyButton.XRA1405_configureCountingMode (b : XRA1405_MyButton)
    (mode : XRA1405_CountMode) : XRA1405_MyButton :=
  { b with _count_mode := mode.toInt }

/-- Member `XRA1405_getCount`. -/
def XRA1405_MyButton.XRA1405_getCount (b : XRA1405_MyButton) : Nat :=
  b._count

/-- Member `XRA1405_clearCount`. -/
def XRA1405_MyButton.XRA1405_clearCount (b : XRA1405_MyButton) : XRA1405_MyButton :=
  { b with _count := 0 }

/-- One call of `XRA1405_checkDoubleClick`: the new state and the returned `doubleClicked`. -/
def XRA1405_MyButton.XRA1405_checkDoubleClick (w : Nat) (b : XRA1405_MyButton)
    (currentState : Int) (now : Nat) : XRA1405_MyButton × Bool :=
  let currentTime := now % 2 ^ w
  let r1 : XRA1405_MyButton × Bool :=
    if currentState ≠ b._last_flickerable_state then
      let b1 := { b with _last_flickerable_state := currentState }
      if currentState = LOW then
        if ¬ b1._first_click_detected then
          ({ b1 with _first_click_detected := true, _last_click_time := currentTime }, false)
        else if usub w currentTime b1._last_click_time ≤ DOUBLE_CLICK_INTERVAL then
          ({ b1 with _first_click_detected := false }, true)
        else (b1, false)
      else (b1, false)
    else (b, false)
  let b2 := r1.1
  let b3 :=
    if b2._first_click_detected ∧
        usub w currentTime b2._last_click_time > DOUBLE_CLICK_INTERVAL then
      { b2 with _first_click_detected := false }
    else b2
  (b3, r1.2)

set_option linter.dupNamespace false in
/-- The constructor `XRA1405_MyButton::XRA1405_MyButton` with three arguments (the one with
two arguments delegates to it with `gpio_mode = INPUT`).  `pinRead` is the level returned by
the single `XRA1405_digitalRead` call.  The constructor body declares two *locals* named
`_last_click_time` and `_first_click_detected`, so the members of these names are never
assigned: their indeterminate values are the arguments `indet_last_click_time` and
`indet_first_click_detected`.  `_loopIntervalMicros` and `_lastUpdateTime` take their default
member initialisers.  The call `XRA1405_pinMode` only acts on the hardware.
It is declared after the member functions: inside the namespace `XRA1405_MyButton` the bare
name would from here on denote the constructor, not the class. -/
def XRA1405_MyButton.XRA1405_MyButton (chipSelectPin button_pin gpio_mode : Nat)
    (pinRead : Int) (indet_last_click_time : Nat) (indet_first_click_detected : Bool) :
    XRA1405_MyButton :=
  { _chipSelectPin := chipSelectPin % 256
    _button_pin := button_pin % 256
    _gpio_mode := gpio_mode % 256
    _debounce_time := 0
    _count := 0
    _count_mode := XRA1405_CountMode.XRA1405_COUNT_FALLING.toInt
    _previous_steady_state := pinRead
    _last_steady_state := pinRead
    _last_flickerable_state := pinRead
    _last_debounce_time := 0
    _last_click_time := indet_last_click_time
    _first_click_detected := indet_first_click_detected
    _loopIntervalMicros := 1000
    _lastUpdateTime := 0 }

/-- The state after the polls of a finite list, oldest first. -/
def loopRun (w : Nat) (b : XRA1405_MyButton) : List (Int × Nat) → XRA1405_MyButton
  | [] => b
  | p :: ps => loopRun w (b.XRA1405_loop w p.1 p.2) ps

/-- The state after the first `n` polls of a poll sequence `polls 0, polls 1, ...`, each a pair
of the level read and the clock value. -/
def loopAfter (w : Nat) (b : XRA1405_MyButton) (polls : Nat → Int × Nat) :
    Nat → XRA1405_MyButton
  | 0 => b
  | n + 1 => (loopAfter w b polls n).XRA1405_loop w (polls n).1 (polls n).2

/-- The level read by the poll (or call) before number `n`; the construction-time level `r`
for `n = 0`. -/
def levelBefore (r : Int) (polls : Nat → Int × Nat) : Nat → Int
  | 0 => r
  | n + 1 => (polls n).1

/-- Poll number `i` observes a raw change: it reads a level other than the one read before. -/
def rawChangeAt (r : Int) (polls : Nat → Int × Nat) (i : Nat) : Prop :=
  (polls i).1 ≠ levelBefore r polls i

instance (r : Int) (polls : Nat → Int × Nat) (i : Nat) : Decidable (rawChangeAt r polls i) := by
  unfold rawChangeAt; infer_instance

/-- The debounce test of `XRA1405_loop` (line 60) as it is evaluated in a call that reads
`currentState` at clock value `now`: the timestamp compared is the one left by the
flicker block (lines 51-57). -/
def loopPromotes (w : Nat) (b : XRA1405_MyButton) (currentState : Int)
    (now : Nat) : Prop :=
  b._debounce_time ≤ usub w (now % 2 ^ w)
    (if currentState ≠ b._last_flickerable_state then now % 2 ^ w else b._last_debounce_time)

instance (w : Nat) (b : XRA1405_MyButton) (c : Int) (now : Nat) :
    Decidable (loopPromotes w b c now) := by
  unfold loopPromotes; infer_instance

/-- Invariant of the debounce state after the first `n` polls on a button constructed with
level `r`: the raw level is the last level read, and either the stable level equals the raw
level, or some poll `i < n` observed a raw change, stamped the debounce time, and every poll
since read the same level. -/
def DebounceInv (r : Int) (d : Nat) (polls : Nat → Int × Nat) (n : Nat)
    (s : XRA1405_MyButton) : Prop :=
  s._debounce_time = d ∧ s._last_flickerable_state = levelBefore r polls n ∧
    (s._last_steady_state = s._last_flickerable_state ∨
      ∃ i, i < n ∧ rawChangeAt r polls i ∧ s._last_debounce_time = (polls i).2 ∧
        ∀ k, i ≤ k → k < n → (polls k).1 = s._last_flickerable_state)

/-- A button as it is set up before polling: constructed (one read returning `r`), then
configured with debounce duration `d` and counting mode `m`. -/
def configuredButton (w chipSelectPin button_pin gpio_mode : Nat) (r : Int)
    (indet_last_click_time : Nat) (indet_first_click_detected : Bool) (d : Nat)
    (m : XRA1405_CountMode) : XRA1405_MyButton :=
  ((XRA1405_MyButton.XRA1405_MyButton chipSelectPin button_pin gpio_mode r
    indet_last_click_time indet_first_click_detected).XRA1405_configureDebounceDuration w
      d).XRA1405_configureCountingMode m

/-- The flicker scenario: the level read at construction is 0, the raw level flips
0 → 1 → 0 → 1 within 10 ms (polls at 0, 3 and 6 ms), then holds at 1 (polls at 30 and
66 ms, and from then on). -/
def scenarioPolls (i : Nat) : Int × Nat :=
  if i = 0 then (1, 0) else if i = 1 then (0, 3) else if i = 2 then (1, 6)
  else if i = 3 then (1, 30) else (1, 66)

/-- A level that flips at every poll, polled once per millisecond up to 1000 ms. -/
def flickerPolls (i : Nat) : Int × Nat :=
  (if i % 2 = 0 then 1 else 0, if i ≤ 1000 then i else 1000)

/-- The number of polls of a list at which `XRA1405_getStableState` changed value. -/
def stableChangeCount (w : Nat) (b : XRA1405_MyButton) : List (Int × Nat) → Nat
  | [] => 0
  | p :: ps =>
    (if (b.XRA1405_loop w p.1 p.2).XRA1405_getStableState ≠ b.XRA1405_getStableState then 1
      else 0) + stableChangeCount w (b.XRA1405_loop w p.1 p.2) ps

/-- The number of adjacent pairs (`LOW`, `HIGH`) in a sequence of levels. -/
def risingPairs : List Int → Nat
  | [] => 0
  | [_] => 0
  | a :: b :: rest => (if a = LOW ∧ b = HIGH then 1 else 0) + risingPairs (b :: rest)

/-- Polls that hold level 1 at 70 ms, then read 0 at 80 ms and at 140 ms. -/
def releasePolls (i : Nat) : Int × Nat :=
  if i = 0 then (1, 70) else if i = 1 then (0, 80) else (0, 140)

/-- A call of one of the public member functions of `XRA1405_MyButton` (the constructors
apart), with the values the call receives from its caller, the pin and the clock. -/
inductive PublicOp where
  | XRA1405_loop (currentState : Int) (now : Nat)
  | XRA1405_setLoopIntervalMicros (interval : Nat)
  | XRA1405_configureDebounceDuration (time : Nat)
  | XRA1405_getStableState
  | XRA1405_getImmediateState (pinRead : Int)
  | XRA1405_checkPressed
  | XRA1405_checkReleased
  | XRA1405_configureCountingMode (mode : XRA1405_CountMode)
  | XRA1405_getCount
  | XRA1405_clearCount
  | XRA1405_checkDoubleClick (currentState : Int) (now : Nat)
  deriving DecidableEq

/-- The state of the button after a public call; the member functions that only return a
value leave it as it is. -/
def applyOp (w : Nat) (b : XRA1405_MyButton) : PublicOp → XRA1405_MyButton
  | .XRA1405_loop c now => b.XRA1405_loop w c now
  | .XRA1405_setLoopIntervalMicros x => b.XRA1405_setLoopIntervalMicros w x
  | .XRA1405_configureDebounceDuration t => b.XRA1405_configureDebounceDuration w t
  | .XRA1405_getStableState => b
  | .XRA1405_getImmediateState _ => b
  | .XRA1405_checkPressed => b
  | .XRA1405_checkReleased => b
  | .XRA1405_configureCountingMode m => b.XRA1405_configureCountingMode m
  | .XRA1405_getCount => b
  | .XRA1405_clearCount => b.XRA1405_clearCount
  | .XRA1405_checkDoubleClick c now => (b.XRA1405_checkDoubleClick w c now).1

/-- A state with the counter at its largest value for 32 bits: level `HIGH` at construction,
mode `XRA1405_COUNT_BOTH`, 4294967295 transitions counted. -/
def counterAtMax : XRA1405_MyButton :=
  { (XRA1405_MyButton.XRA1405_MyButton 15 3 0 HIGH 0 false).XRA1405_configureCountingMode
      .XRA1405_COUNT_BOTH with _count := 4294967295 }

/-- The state after the first `n` calls of `XRA1405_checkDoubleClick`, call number `i` reading
level `(calls i).1` at clock value `(calls i).2`. -/
def dcAfter (w : Nat) (b : XRA1405_MyButton) (calls : Nat → Int × Nat) :
    Nat → XRA1405_MyButton
  | 0 => b
  | n + 1 =>
    ((dcAfter w b calls n).XRA1405_checkDoubleClick w (calls n).1 (calls n).2).1

/-- The value returned by call number `n` of `XRA1405_checkDoubleClick`. -/
def dcResult (w : Nat) (b : XRA1405_MyButton) (calls : Nat → Int × Nat) (n : Nat) : Bool :=
  ((dcAfter w b calls n).XRA1405_checkDoubleClick w (calls n).1 (calls n).2).2

/-- Call number `k` observes a press: it reads `LOW` and the level observed before was `HIGH`
(the construction-time level `r` before call 0). -/
def pressAt (r : Int) (calls : Nat → Int × Nat) (k : Nat) : Prop :=
  (calls k).1 = LOW ∧ levelBefore r calls k = HIGH

instance (r : Int) (calls : Nat → Int × Nat) (k : Nat) : Decidable (pressAt r calls k) := by
  unfold pressAt; infer_instance

/-- Three presses 200 ms apart: `LOW` at 0, 200 and 400 ms, `HIGH` at 100 and 300 ms. -/
def triplePress (i : Nat) : Int × Nat :=
  if i = 0 then (0, 0) else if i = 1 then (1, 100) else if i = 2 then (0, 200)
  else if i = 3 then (1, 300) else (0, 400)

/-- Two presses 300 ms apart: `LOW` at 0 ms, `HIGH` at 100 ms, `LOW` from 300 ms on. -/
def pressesApart300 (i : Nat) : Int × Nat :=
  if i = 0 then (0, 0) else if i = 1 then (1, 100) else (0, 300)

/-- Two presses 600 ms apart: `LOW` at 0 ms, `HIGH` at 100 ms, `LOW` from 600 ms on. -/
def pressesApart600 (i : Nat) : Int × Nat :=
  if i = 0 then (0, 0) else if i = 1 then (1, 100) else (0, 600)

/-- The data members that `XRA1405_loop` reads or writes: debounce duration, count, counting
mode, previous stable, stable and raw level, and the raw-change timestamp. -/
def loopState (b : XRA1405_MyButton) : Nat × Nat × Int × Int × Int × Int × Nat :=
  (b._debounce_time, b._count, b._count_mode, b._previous_steady_state, b._last_steady_state,
    b._last_flickerable_state, b._last_debounce_time)

/-- The value a public call returns to its caller. -/
inductive OpReturn where
  | void
  | bool (v : Bool)
  | level (v : Int)
  | count (v : Nat)
  deriving DecidableEq

/-- The value returned by a public call made in state `b`. -/
def opReturn (w : Nat) (b : XRA1405_MyButton) : PublicOp → OpReturn
  | .XRA1405_loop _ _ => .void
  | .XRA1405_setLoopIntervalMicros _ => .void
  | .XRA1405_configureDebounceDuration _ => .void
  | .XRA1405_getStableState => .level b.XRA1405_getStableState
  | .XRA1405_getImmediateState pinRead => .level (b.XRA1405_getImmediateState pinRead)
  | .XRA1405_checkPressed => .bool b.XRA1405_checkPressed
  | .XRA1405_checkReleased => .bool b.XRA1405_checkReleased
  | .XRA1405_configureCountingMode _ => .void
  | .XRA1405_getCount => .count b.XRA1405_getCount
  | .XRA1405_clearCount => .void
  | .XRA1405_checkDoubleClick c now => .bool (b.XRA1405_checkDoubleClick w c now).2

/-- A sequence of public calls made one after the other from state `b`: the final state and
the values returned, in order. -/
def runOps (w : Nat) (b : XRA1405_MyButton) : List PublicOp → XRA1405_MyButton × List OpReturn
  | [] => (b, [])
  | op :: ops => ((runOps w (applyOp w b op) ops).1, opReturn w b op :: (runOps w (applyOp w b op) ops).2)

/-- Two states agree in every data member other than `_loopIntervalMicros`. -/
def sameExceptLoopInterval (b1 b2 : XRA1405_MyButton) : Prop :=
  b1._chipSelectPin = b2._chipSelectPin ∧ b1._button_pin = b2._button_pin ∧
    b1._gpio_mode = b2._gpio_mode ∧ b1._debounce_time = b2._debounce_time ∧
    b1._count = b2._count ∧ b1._count_mode = b2._count_mode ∧
    b1._previous_steady_state = b2._previous_steady_state ∧
    b1._last_steady_state = b2._last_steady_state ∧
    b1._last_flickerable_state = b2._last_flickerable_state ∧
    b1._last_debounce_time = b2._last_debounce_time ∧
    b1._last_click_time = b2._last_click_time ∧
    b1._first_click_detected = b2._first_click_detected ∧
    b1._lastUpdateTime = b2._lastUpdateTime

instance (b1 b2 : XRA1405_MyButton) : Decidable (sameExceptLoopInterval b1 b2) := by
  unfold sameExceptLoopInterval; infer_instance

/-- A level is one of the two logical levels `LOW` and `HIGH`. -/
def twoLevel (v : Int) : Prop := v = LOW ∨ v = HIGH

instance (v : Int) : Decidable (twoLevel v) := by
  unfold twoLevel; infer_instance

/-- The pin read made by a public call, when it makes one, returns `LOW` or `HIGH`. -/
def opReadsTwoLevel : PublicOp → Prop
  | .XRA1405_loop c _ => twoLevel c
  | .XRA1405_getImmediateState c => twoLevel c
  | .XRA1405_checkDoubleClick c _ => twoLevel c
  | _ => True

instance (op : PublicOp) : Decidable (opReadsTwoLevel op) := by
  cases op <;> unfold opReadsTwoLevel <;> infer_instance

/-- The raw, the stable and the previous stable level of a state are each `LOW` or `HIGH`. -/
def levelsTwoLevel (b : XRA1405_MyButton) : Prop :=
  twoLevel b._last_flickerable_state ∧ twoLevel b._last_steady_state ∧
    twoLevel b._previous_steady_state

/-- A state whose debounce and click timestamps were recorded 96 ms before a 32-bit
millisecond counter wraps: level `LOW` stable, raw level `HIGH` since then, a first click
pending, debounce 50 ms. -/
def beforeWrap : XRA1405_MyButton :=
  { (configuredButton 32 15 3 0 LOW 0 false 50 .XRA1405_COUNT_RISING) with
    _last_flickerable_state := HIGH
    _last_debounce_time := 4294967200
    _last_click_time := 4294967200
    _first_click_detected := true }

/-- A state with the counter at its largest value for 32 bits: level `HIGH` at construction,
mode `XRA1405_COUNT_FALLING` (the constructor's), 4294967295 transitions counted. -/
def counterAtMaxFalling : XRA1405_MyButton :=
  { XRA1405_MyButton.XRA1405_MyButton 15 3 0 HIGH 0 false with _count := 4294967295 }

/-- The polls that read `HIGH` then `LOW`, `n` times over, one poll per millisecond from
clock value `t` on. -/
def alternatingPollsFrom (t : Nat) : Nat → List (Int × Nat)
  | 0 => []
  | n + 1 => (HIGH, t) :: (LOW, t + 1) :: alternatingPollsFrom (t + 2) n

/-- Three presses, the second too late: `LOW` at 0, 600 and 700 ms, `HIGH` at 100 and
650 ms. -/
def latePress (i : Nat) : Int × Nat :=
  if i = 0 then (0, 0) else if i = 1 then (1, 100) else if i = 2 then (0, 600)
  else if i = 3 then (1, 650) else (0, 700)

/-- Reference for the pairing of presses, read off the call sequence alone, after the spec's
description of `check_double_click`: the timestamp of the first click that is open before
call number `n`, if there is one.  A press observed while no first click is open opens one.
An open first click is closed by any call made more than 500 ms after it (also when that
call observes a press: the late press is dropped), and otherwise by the next press, which
completes the pair. -/
def specOpenClick (r : Int) (calls : Nat → Int × Nat) : Nat → Option Nat
  | 0 => none
  | n + 1 =>
    match specOpenClick r calls n with
    | none => if pressAt r calls n then some (calls n).2 else none
    | some t1 =>
      if DOUBLE_CLICK_INTERVAL < (calls n).2 - t1 then none
      else if pressAt r calls n then none else some t1

/-! ## Unsigned arithmetic -/

theorem two_pow_pos_w (w : Nat) : 0 < 2 ^ w := Nat.pos_pow_of_pos w (by decide)

theorem usub_of_le (w a b : Nat) (ha : a < 2 ^ w) (hb : b ≤ a) : usub w a b = a - b := by
  unfold usub
  have hb2 : b < 2 ^ w := lt_of_le_of_lt hb ha
  rw [Nat.mod_eq_of_lt ha, Nat.mod_eq_of_lt hb2]
  have h : a + (2 ^ w - b) = (a - b) + 2 ^ w := by omega
  rw [h, Nat.add_mod_right, Nat.mod_eq_of_lt (by omega)]

theorem usub_self (w a : Nat) : usub w a a = 0 := by
  unfold usub
  have h := Nat.mod_lt a (two_pow_pos_w w)
  have h2 : a % 2 ^ w + (2 ^ w - a % 2 ^ w) = 2 ^ w := by omega
  rw [h2, Nat.mod_self]

/-! ## Field-by-field description of one `XRA1405_loop` call -/

theorem loop_debounce_time (w : Nat) (b : XRA1405_MyButton) (c : Int) (now : Nat) :
    (b.XRA1405_loop w c now)._debounce_time = b._debounce_time := by
  unfold XRA1405_MyButton.XRA1405_loop
  simp only
  split_ifs <;> rfl

theorem loop_count_mode (w : Nat) (b : XRA1405_MyButton) (c : Int) (now : Nat) :
    (b.XRA1405_loop w c now)._count_mode = b._count_mode := by
  unfold XRA1405_MyButton.XRA1405_loop
  simp only
  split_ifs <;> rfl

theorem loop_flickerable (w : Nat) (b : XRA1405_MyButton) (c : Int) (now : Nat) :
    (b.XRA1405_loop w c now)._last_flickerable_state = c := by
  unfold XRA1405_MyButton.XRA1405_loop
  simp only
  split_ifs <;> simp_all

theorem loop_last_debounce_time (w : Nat) (b : XRA1405_MyButton) (c : Int) (now : Nat) :
    (b.XRA1405_loop w c now)._last_debounce_time =
      if c ≠ b._last_flickerable_state then now % 2 ^ w else b._last_debounce_time := by
  unfold XRA1405_MyButton.XRA1405_loop
  simp only
  split_ifs <;> simp_all

theorem loop_last_steady (w : Nat) (b : XRA1405_MyButton) (c : Int) (now : Nat) :
    (b.XRA1405_loop w c now)._last_steady_state =
      if loopPromotes w b c now then c else b._last_steady_state := by
  unfold XRA1405_MyButton.XRA1405_loop loopPromotes
  simp only
  split_ifs <;> simp_all

theorem loop_previous_steady (w : Nat) (b : XRA1405_MyButton) (c : Int) (now : Nat) :
    (b.XRA1405_loop w c now)._previous_steady_state =
      if loopPromotes w b c now then b._last_steady_state else b._previous_steady_state := by
  unfold XRA1405_MyButton.XRA1405_loop loopPromotes
  simp only
  split_ifs <;> simp_all

/-! ## Debounce invariant along a poll sequence -/

theorem debounceInv_step (w : Nat) (r : Int) (d : Nat) (polls : Nat → Int × Nat)
    (hd : 0 < d) (hmono : ∀ i j, i ≤ j → (polls i).2 ≤ (polls j).2)
    (hwrap : ∀ i, (polls i).2 < 2 ^ w) (n : Nat) (s : XRA1405_MyButton)
    (hinv : DebounceInv r d polls n s) :
    DebounceInv r d polls (n + 1) (s.XRA1405_loop w (polls n).1 (polls n).2) ∧
      ((s.XRA1405_loop w (polls n).1 (polls n).2)._last_steady_state ≠ s._last_steady_state →
        ∃ i, i < n ∧ rawChangeAt r polls i ∧
          (∀ k, i ≤ k → k ≤ n → (polls k).1 = (polls n).1) ∧
          d ≤ (polls n).2 - (polls i).2) := by
  obtain ⟨hdt, hfl, hdis⟩ := hinv
  have hmod : (polls n).2 % 2 ^ w = (polls n).2 := Nat.mod_eq_of_lt (hwrap n)
  by_cases hc : (polls n).1 = s._last_flickerable_state
  · -- no raw change at poll `n`
    have hprom : loopPromotes w s (polls n).1 (polls n).2 ↔
        d ≤ usub w (polls n).2 s._last_debounce_time := by
      unfold loopPromotes
      rw [hdt, hmod]
      simp [hc]
    refine ⟨⟨?_, ?_, ?_⟩, ?_⟩
    · rw [loop_debounce_time, hdt]
    · rw [loop_flickerable]; rfl
    · rw [loop_flickerable, loop_last_steady, loop_last_debounce_time]
      by_cases hp : loopPromotes w s (polls n).1 (polls n).2
      · left; simp [hp]
      · rcases hdis with h | ⟨i, hi, hraw, hldt, hsame⟩
        · left; simp [hp, h, hc]
        · right
          refine ⟨i, by omega, hraw, ?_, ?_⟩
          · simp [hc, hldt]
          · intro k hik hkn
            rcases Nat.lt_or_ge k n with hlt | hge
            · rw [hsame k hik hlt, hc]
            · have : k = n := by omega
              rw [this]
    · intro hne
      rw [loop_last_steady] at hne
      by_cases hp : loopPromotes w s (polls n).1 (polls n).2
      · simp only [hp, if_true] at hne
        rcases hdis with h | ⟨i, hi, hraw, hldt, hsame⟩
        · exact absurd (hc.trans h.symm) hne
        · refine ⟨i, hi, hraw, ?_, ?_⟩
          · intro k hik hkn
            rcases Nat.lt_or_ge k n with hlt | hge
            · rw [hsame k hik hlt, hc]
            · have : k = n := by omega
              rw [this]
          · have h1 := hprom.mp hp
            rw [hldt, usub_of_le w _ _ (hwrap n) (hmono i n (by omega))] at h1
            exact h1
      · simp [hp] at hne
  · -- poll `n` observes a raw change: the timestamp is reset and nothing is promoted
    have hprom : ¬ loopPromotes w s (polls n).1 (polls n).2 := by
      unfold loopPromotes
      rw [hdt]
      simp only [ne_eq, hc, not_false_eq_true, if_true, usub_self]
      omega
    refine ⟨⟨?_, ?_, ?_⟩, ?_⟩
    · rw [loop_debounce_time, hdt]
    · rw [loop_flickerable]; rfl
    · right
      refine ⟨n, by omega, ?_, ?_, ?_⟩
      · unfold rawChangeAt
        rw [← hfl]; exact hc
      · rw [loop_last_debounce_time]; simp [hc, hmod]
      · intro k hik hkn
        have : k = n := by omega
        rw [this, loop_flickerable]
    · intro hne
      rw [loop_last_steady] at hne
      simp [hprom] at hne

theorem debounceInv_loopAfter (w cs pin gm : Nat) (r : Int) (lct : Nat) (fcd : Bool) (d : Nat)
    (m : XRA1405_CountMode) (polls : Nat → Int × Nat)
    (hd : 0 < d) (hdw : d < 2 ^ w) (hmono : ∀ i j, i ≤ j → (polls i).2 ≤ (polls j).2)
    (hwrap : ∀ i, (polls i).2 < 2 ^ w) (n : Nat) :
    DebounceInv r d polls n (loopAfter w (configuredButton w cs pin gm r lct fcd d m) polls n) := by
  induction n with
  | zero =>
    refine ⟨?_, rfl, Or.inl rfl⟩
    simp [loopAfter, configuredButton, XRA1405_MyButton.XRA1405_configureCountingMode,
      XRA1405_MyButton.XRA1405_configureDebounceDuration, Nat.mod_eq_of_lt hdw]
  | succ n ih => exact (debounceInv_step w r d polls hd hmono hwrap n _ ih).1

/-- Claim C1 (bounce rejection).  On a freshly constructed button with debounce duration
`d > 0`, polled with non-decreasing, non-wrapping clock values: (1) if the stable state
changes value at poll `n`, then some earlier poll `i < n` observed a raw change, every poll
from `i` to `n` read the same level, and poll `n` comes at least `d` ms after poll `i`;
(2) if every observed raw change is followed by another one less than `d` ms later, the
stable state equals the construction-time level after every poll. -/
theorem C1_bounce_rejection (w cs pin gm : Nat) (r : Int) (lct : Nat) (fcd : Bool) (d : Nat)
    (m : XRA1405_CountMode) (polls : Nat → Int × Nat)
    (hd : 0 < d) (hdw : d < 2 ^ w) (hmono : ∀ i j, i ≤ j → (polls i).2 ≤ (polls j).2)
    (hwrap : ∀ i, (polls i).2 < 2 ^ w) :
    (∀ n, (loopAfter w (configuredButton w cs pin gm r lct fcd d m) polls
          (n + 1)).XRA1405_getStableState ≠
        (loopAfter w (configuredButton w cs pin gm r lct fcd d m) polls
          n).XRA1405_getStableState →
      ∃ i, i < n ∧ rawChangeAt r polls i ∧
        (∀ k, i ≤ k → k ≤ n → (polls k).1 = (polls n).1) ∧
        d ≤ (polls n).2 - (polls i).2) ∧
    ((∀ i, rawChangeAt r polls i →
        ∃ j, i < j ∧ rawChangeAt r polls j ∧ (polls j).2 - (polls i).2 < d) →
      ∀ n, (loopAfter w (configuredButton w cs pin gm r lct fcd d m) polls
        n).XRA1405_getStableState = r) := by
  have part1 : ∀ n, (loopAfter w (configuredButton w cs pin gm r lct fcd d m) polls
          (n + 1)).XRA1405_getStableState ≠
        (loopAfter w (configuredButton w cs pin gm r lct fcd d m) polls
          n).XRA1405_getStableState →
      ∃ i, i < n ∧ rawChangeAt r polls i ∧
        (∀ k, i ≤ k → k ≤ n → (polls k).1 = (polls n).1) ∧
        d ≤ (polls n).2 - (polls i).2 := by
    intro n hne
    exact (debounceInv_step w r d polls hd hmono hwrap n _
      (debounceInv_loopAfter w cs pin gm r lct fcd d m polls hd hdw hmono hwrap n)).2 hne
  refine ⟨part1, ?_⟩
  intro hflick n
  induction n with
  | zero => rfl
  | succ n ih =>
    by_contra hne
    have hchg : (loopAfter w (configuredButton w cs pin gm r lct fcd d m) polls
          (n + 1)).XRA1405_getStableState ≠
        (loopAfter w (configuredButton w cs pin gm r lct fcd d m) polls
          n).XRA1405_getStableState := by
      rw [ih]; exact hne
    obtain ⟨i, hi, hraw, hsame, hgap⟩ := part1 n hchg
    obtain ⟨j, hij, hrawj, hlt⟩ := hflick i hraw
    rcases Nat.lt_or_ge n j with hnj | hjn
    · have h1 := hmono n j (by omega)
      omega
    · -- a raw change at `j` with `i < j ≤ n` contradicts the constant level on `i..n`
      obtain ⟨j', rfl⟩ : ∃ j', j = j' + 1 := ⟨j - 1, by omega⟩
      unfold rawChangeAt at hrawj
      simp only [levelBefore] at hrawj
      exact hrawj ((hsame (j' + 1) (by omega) hjn).trans (hsame j' (by omega) (by omega)).symm)

theorem C1_bounce_rejection_witness :
    (loopAfter 32 (configuredButton 32 15 3 0 0 0 false 2 .XRA1405_COUNT_FALLING) flickerPolls
        7).XRA1405_getStableState = 0 ∧
    ∃ i, i < 4 ∧ rawChangeAt 0 scenarioPolls i ∧
      (∀ k, i ≤ k → k ≤ 4 → (scenarioPolls k).1 = (scenarioPolls 4).1) ∧
      50 ≤ (scenarioPolls 4).2 - (scenarioPolls i).2 := by
  constructor
  · refine (C1_bounce_rejection 32 15 3 0 0 0 false 2 .XRA1405_COUNT_FALLING flickerPolls
      (by decide) (by decide) ?_ ?_).2 ?_ 7
    · intro i j h
      simp only [flickerPolls]
      split_ifs <;> omega
    · intro i
      simp only [flickerPolls]
      split_ifs <;> omega
    · intro i _
      refine ⟨i + 1, by omega, ?_, ?_⟩
      · unfold rawChangeAt
        simp only [levelBefore, flickerPolls]
        split_ifs <;> omega
      · simp only [flickerPolls]
        split_ifs <;> omega
  · refine (C1_bounce_rejection 32 15 3 0 0 0 false 50 .XRA1405_COUNT_FALLING scenarioPolls
      (by decide) (by decide) ?_ ?_).1 4 (by decide)
    · intro i j h
      simp only [scenarioPolls]
      split_ifs <;> omega
    · intro i
      simp only [scenarioPolls]
      split_ifs <;> decide

/-! ## Promotion of a level that is held -/

theorem loopPromotes_iff (w : Nat) (s : XRA1405_MyButton) (c : Int) (now : Nat) :
    loopPromotes w s c now ↔
      s._debounce_time ≤ usub w (now % 2 ^ w) (s.XRA1405_loop w c now)._last_debounce_time := by
  rw [loop_last_debounce_time]; rfl

theorem loopAfter_debounce_time (w : Nat) (s : XRA1405_MyButton) (polls : Nat → Int × Nat)
    (n : Nat) : (loopAfter w s polls n)._debounce_time = s._debounce_time := by
  induction n with
  | zero => rfl
  | succ n ih => rw [loopAfter, loop_debounce_time, ih]

/-- The debounce timestamp is never later than the next poll. -/
theorem loopAfter_timestamp_le (w : Nat) (s : XRA1405_MyButton) (polls : Nat → Int × Nat)
    (hmono : ∀ i j, i ≤ j → (polls i).2 ≤ (polls j).2) (hwrap : ∀ i, (polls i).2 < 2 ^ w)
    (hldt : s._last_debounce_time ≤ (polls 0).2) (n : Nat) :
    (loopAfter w s polls n)._last_debounce_time ≤ (polls n).2 := by
  induction n with
  | zero => exact hldt
  | succ n ih =>
    rw [loopAfter, loop_last_debounce_time]
    have h := hmono n (n + 1) (by omega)
    split_ifs
    · rw [Nat.mod_eq_of_lt (hwrap n)]; exact h
    · omega

/-- While the polls from `i` on read the same level, the timestamp stays at or before the
time of poll `i`. -/
theorem loopAfter_held (w : Nat) (s : XRA1405_MyButton) (polls : Nat → Int × Nat) (v : Int)
    (hmono : ∀ i j, i ≤ j → (polls i).2 ≤ (polls j).2) (hwrap : ∀ i, (polls i).2 < 2 ^ w)
    (hldt : s._last_debounce_time ≤ (polls 0).2) (i n : Nat)
    (hsame : ∀ k, i ≤ k → k ≤ n → (polls k).1 = v) (j : Nat) (hj : i + j ≤ n) :
    (loopAfter w s polls (i + j + 1))._last_debounce_time ≤ (polls i).2 := by
  induction j with
  | zero =>
    rw [Nat.add_zero, loopAfter, loop_last_debounce_time]
    split_ifs
    · rw [Nat.mod_eq_of_lt (hwrap i)]
    · exact loopAfter_timestamp_le w s polls hmono hwrap hldt i
  | succ j ih =>
    have hprev := ih (by omega)
    have hfl : (loopAfter w s polls (i + j + 1))._last_flickerable_state = v := by
      rw [loopAfter, loop_flickerable]; exact hsame (i + j) (by omega) (by omega)
    have hc : (polls (i + (j + 1))).1 = v := hsame (i + (j + 1)) (by omega) hj
    rw [loopAfter, loop_last_debounce_time]
    have e : i + (j + 1) = i + j + 1 := by omega
    rw [e] at hc ⊢
    simp only [hc, hfl, ne_eq, not_true_eq_false, if_false]
    exact hprev

/-- Claim C2 (promotion).  Let a button whose debounce timestamp is not in the future (as
after construction, where it is 0) be polled with non-decreasing, non-wrapping clock values.
If all polls from number `i` up to and including number `n` read the same level `v`, and poll
`n` comes at least the debounce duration after poll `i`, then right after poll `n`
`XRA1405_getStableState` returns `v`. -/
theorem C2_promotion (w : Nat) (s : XRA1405_MyButton) (polls : Nat → Int × Nat) (v : Int)
    (i n : Nat)
    (hmono : ∀ i j, i ≤ j → (polls i).2 ≤ (polls j).2) (hwrap : ∀ i, (polls i).2 < 2 ^ w)
    (hldt : s._last_debounce_time ≤ (polls 0).2) (hin : i ≤ n)
    (hsame : ∀ k, i ≤ k → k ≤ n → (polls k).1 = v)
    (hgap : s._debounce_time ≤ (polls n).2 - (polls i).2) :
    (loopAfter w s polls (n + 1)).XRA1405_getStableState = v := by
  obtain ⟨j, rfl⟩ : ∃ j, n = i + j := ⟨n - i, by omega⟩
  have hheld := loopAfter_held w s polls v hmono hwrap hldt i (i + j) hsame j le_rfl
  have hp : loopPromotes w (loopAfter w s polls (i + j)) (polls (i + j)).1 (polls (i + j)).2 := by
    rw [loopPromotes_iff, loopAfter_debounce_time, Nat.mod_eq_of_lt (hwrap (i + j))]
    have hle : (loopAfter w s polls (i + j + 1))._last_debounce_time ≤ (polls (i + j)).2 :=
      le_trans hheld (hmono i (i + j) (by omega))
    have hu := usub_of_le w _ _ (hwrap (i + j)) hle
    rw [loopAfter] at hu
    rw [hu]
    rw [loopAfter] at hheld
    omega
  unfold XRA1405_MyButton.XRA1405_getStableState
  rw [loopAfter, loop_last_steady, if_pos hp]
  exact hsame (i + j) (by omega) le_rfl

theorem C2_promotion_witness :
    (loopAfter 32 (configuredButton 32 15 3 0 0 0 false 50 .XRA1405_COUNT_FALLING) scenarioPolls
      5).XRA1405_getStableState = 1 := by
  refine C2_promotion 32 _ scenarioPolls 1 2 4 ?_ ?_ (by decide) (by decide) ?_ (by decide)
  · intro i j h
    simp only [scenarioPolls]
    split_ifs <;> omega
  · intro i
    simp only [scenarioPolls]
    split_ifs <;> decide
  · intro k h1 h2
    simp only [scenarioPolls]
    split_ifs <;> first | rfl | omega

/-! ## Counting -/

/-- Claim C3, evaluated where it fails.  Debounce 50 ms, mode `XRA1405_COUNT_BOTH`, level
`HIGH` at construction; polls read `LOW` at 0 ms, `LOW` at 50 ms and `HIGH` at 60 ms.  The
stable state changes at the second poll only, yet the count is 2: the third poll promotes
nothing, and the counting block sees the pair left by the second poll once more. -/
theorem C3_stale_pair_counted_twice :
    stableChangeCount 32 (configuredButton 32 15 3 0 HIGH 0 false 50 .XRA1405_COUNT_BOTH)
        [(LOW, 0), (LOW, 50), (HIGH, 60)] = 1 ∧
      (configuredButton 32 15 3 0 HIGH 0 false 50 .XRA1405_COUNT_BOTH).XRA1405_getCount = 0 ∧
      (loopRun 32 (configuredButton 32 15 3 0 HIGH 0 false 50 .XRA1405_COUNT_BOTH)
        [(LOW, 0), (LOW, 50)]).XRA1405_getCount = 1 ∧
      (loopRun 32 (configuredButton 32 15 3 0 HIGH 0 false 50 .XRA1405_COUNT_BOTH)
        [(LOW, 0), (LOW, 50)]).XRA1405_getStableState =
      (loopRun 32 (configuredButton 32 15 3 0 HIGH 0 false 50 .XRA1405_COUNT_BOTH)
        [(LOW, 0), (LOW, 50), (HIGH, 60)]).XRA1405_getStableState ∧
      (loopRun 32 (configuredButton 32 15 3 0 HIGH 0 false 50 .XRA1405_COUNT_BOTH)
        [(LOW, 0), (LOW, 50), (HIGH, 60)]).XRA1405_getCount = 2 := by
  decide

theorem loop_count (w : Nat) (b : XRA1405_MyButton) (c : Int) (now : Nat) :
    (b.XRA1405_loop w c now)._count =
      if (b.XRA1405_loop w c now).countCondition then (b._count + 1) % 2 ^ w else b._count := by
  unfold XRA1405_MyButton.XRA1405_loop
  simp only
  split_ifs <;> simp_all [XRA1405_MyButton.countCondition]

theorem countCondition_falling (b : XRA1405_MyButton)
    (hm : b._count_mode = XRA1405_CountMode.XRA1405_COUNT_FALLING.toInt) :
    b.countCondition = b.XRA1405_checkPressed := by
  unfold XRA1405_MyButton.countCondition XRA1405_MyButton.XRA1405_checkPressed
  rw [hm]
  simp only [HIGH, LOW, XRA1405_CountMode.toInt]
  by_cases h1 : b._previous_steady_state = 1 <;> by_cases h2 : b._last_steady_state = 0 <;>
    simp [h1, h2]

theorem countCondition_rising (b : XRA1405_MyButton)
    (hm : b._count_mode = XRA1405_CountMode.XRA1405_COUNT_RISING.toInt) :
    b.countCondition = b.XRA1405_checkReleased := by
  unfold XRA1405_MyButton.countCondition XRA1405_MyButton.XRA1405_checkReleased
  rw [hm]
  simp only [HIGH, LOW, XRA1405_CountMode.toInt]
  by_cases h1 : b._previous_steady_state = 0 <;> by_cases h2 : b._last_steady_state = 1 <;>
    simp [h1, h2]

/-- Claim C4 as stated fails.  With 32-bit `unsigned long`, mode `XRA1405_COUNT_FALLING` and
the counter at 4294967295, an `XRA1405_loop` call that reads `LOW` (stable level `HIGH`
before, debounce 0) leaves the previous stable level `HIGH` and the stable level `LOW`, and
`XRA1405_getCount` is 0 after it, not the count before plus 1. -/
theorem C4_increment_wraps :
    counterAtMaxFalling._count_mode = XRA1405_CountMode.XRA1405_COUNT_FALLING.toInt ∧
      counterAtMaxFalling.XRA1405_getCount = 4294967295 ∧
      (counterAtMaxFalling.XRA1405_loop 32 LOW 0)._previous_steady_state = HIGH ∧
      (counterAtMaxFalling.XRA1405_loop 32 LOW 0)._last_steady_state = LOW ∧
      (counterAtMaxFalling.XRA1405_loop 32 LOW 0).XRA1405_getCount = 0 ∧
      (counterAtMaxFalling.XRA1405_loop 32 LOW 0).XRA1405_getCount ≠
        counterAtMaxFalling.XRA1405_getCount + 1 := by
  decide

/-- Claim C4, amended.  One `XRA1405_loop` call in mode `XRA1405_COUNT_FALLING` sets the count
to the count before plus 1 modulo `2 ^ w` (the value of `_count++` on a `w`-bit
`unsigned long`) if after the call the previous stable level is `HIGH` and the stable level
is `LOW`, and otherwise leaves it unchanged; this is an increase by exactly 1 whenever the
count before is below `2 ^ w - 1`; a transition in the opposite direction leaves the count
unchanged.  In mode `XRA1405_COUNT_RISING` the same with `LOW` then `HIGH`. -/
theorem C4_direction_filter (w : Nat) (b : XRA1405_MyButton) (c : Int) (now : Nat) :
    (b._count_mode = XRA1405_CountMode.XRA1405_COUNT_FALLING.toInt →
      (b.XRA1405_loop w c now).XRA1405_getCount =
          (if (b.XRA1405_loop w c now)._previous_steady_state = HIGH ∧
              (b.XRA1405_loop w c now)._last_steady_state = LOW
            then (b.XRA1405_getCount + 1) % 2 ^ w else b.XRA1405_getCount) ∧
        ((b.XRA1405_loop w c now)._previous_steady_state = LOW ∧
            (b.XRA1405_loop w c now)._last_steady_state = HIGH →
          (b.XRA1405_loop w c now).XRA1405_getCount = b.XRA1405_getCount) ∧
        (b.XRA1405_getCount + 1 < 2 ^ w →
          (b.XRA1405_loop w c now)._previous_steady_state = HIGH ∧
            (b.XRA1405_loop w c now)._last_steady_state = LOW →
          (b.XRA1405_loop w c now).XRA1405_getCount = b.XRA1405_getCount + 1)) ∧
    (b._count_mode = XRA1405_CountMode.XRA1405_COUNT_RISING.toInt →
      (b.XRA1405_loop w c now).XRA1405_getCount =
          (if (b.XRA1405_loop w c now)._previous_steady_state = LOW ∧
              (b.XRA1405_loop w c now)._last_steady_state = HIGH
            then (b.XRA1405_getCount + 1) % 2 ^ w else b.XRA1405_getCount) ∧
        ((b.XRA1405_loop w c now)._previous_steady_state = HIGH ∧
            (b.XRA1405_loop w c now)._last_steady_state = LOW →
          (b.XRA1405_loop w c now).XRA1405_getCount = b.XRA1405_getCount) ∧
        (b.XRA1405_getCount + 1 < 2 ^ w →
          (b.XRA1405_loop w c now)._previous_steady_state = LOW ∧
            (b.XRA1405_loop w c now)._last_steady_state = HIGH →
          (b.XRA1405_loop w c now).XRA1405_getCount = b.XRA1405_getCount + 1)) := by
  constructor
  · intro hm
    have hm2 : (b.XRA1405_loop w c now)._count_mode =
        XRA1405_CountMode.XRA1405_COUNT_FALLING.toInt := by rw [loop_count_mode, hm]
    have hc := loop_count w b c now
    rw [countCondition_falling _ hm2] at hc
    unfold XRA1405_MyButton.XRA1405_getCount
    unfold XRA1405_MyButton.XRA1405_checkPressed at hc
    refine ⟨?_, ?_, ?_⟩
    · rw [hc]; simp
    · rintro ⟨h1, h2⟩
      rw [hc]; simp [h1, h2, HIGH, LOW]
    · rintro hlt ⟨h1, h2⟩
      rw [hc]; simp only [h1, h2, decide_True, Bool.and_self, if_true]
      exact Nat.mod_eq_of_lt hlt
  · intro hm
    have hm2 : (b.XRA1405_loop w c now)._count_mode =
        XRA1405_CountMode.XRA1405_COUNT_RISING.toInt := by rw [loop_count_mode, hm]
    have hc := loop_count w b c now
    rw [countCondition_rising _ hm2] at hc
    unfold XRA1405_MyButton.XRA1405_getCount
    unfold XRA1405_MyButton.XRA1405_checkReleased at hc
    refine ⟨?_, ?_, ?_⟩
    · rw [hc]; simp
    · rintro ⟨h1, h2⟩
      rw [hc]; simp [h1, h2, HIGH, LOW]
    · rintro hlt ⟨h1, h2⟩
      rw [hc]; simp only [h1, h2, decide_True, Bool.and_self, if_true]
      exact Nat.mod_eq_of_lt hlt

theorem C4_direction_filter_witness :
    ((configuredButton 32 15 3 0 HIGH 0 false 0 .XRA1405_COUNT_FALLING).XRA1405_loop 32 LOW
        7).XRA1405_getCount = 1 ∧
      ((configuredButton 32 15 3 0 LOW 0 false 0 .XRA1405_COUNT_FALLING).XRA1405_loop 32 HIGH
        7).XRA1405_getCount = 0 ∧
      ((configuredButton 32 15 3 0 LOW 0 false 0 .XRA1405_COUNT_RISING).XRA1405_loop 32 HIGH
        7).XRA1405_getCount = 1 ∧
      ((configuredButton 32 15 3 0 HIGH 0 false 0 .XRA1405_COUNT_RISING).XRA1405_loop 32 LOW
        7).XRA1405_getCount = 0 :=
  ⟨((C4_direction_filter 32 (configuredButton 32 15 3 0 HIGH 0 false 0 .XRA1405_COUNT_FALLING)
      LOW 7).1 (by decide)).2.2 (by decide) (by decide),
    ((C4_direction_filter 32 (configuredButton 32 15 3 0 LOW 0 false 0 .XRA1405_COUNT_FALLING)
      HIGH 7).1 (by decide)).2.1 (by decide),
    ((C4_direction_filter 32 (configuredButton 32 15 3 0 LOW 0 false 0 .XRA1405_COUNT_RISING)
      HIGH 7).2 (by decide)).2.2 (by decide) (by decide),
    ((C4_direction_filter 32 (configuredButton 32 15 3 0 HIGH 0 false 0 .XRA1405_COUNT_RISING)
      LOW 7).2 (by decide)).2.1 (by decide)⟩

theorem risingPairs_le (a : Int) (l : List Int) : risingPairs (a :: l) ≤ l.length := by
  induction l generalizing a with
  | nil => simp [risingPairs]
  | cons b rest ih =>
    have h := ih b
    simp only [risingPairs, List.length_cons]
    split_ifs <;> omega

theorem loopRun_debounce_zero (w : Nat) (polls : List (Int × Nat)) (s : XRA1405_MyButton)
    (hd : s._debounce_time = 0)
    (hm : s._count_mode = XRA1405_CountMode.XRA1405_COUNT_RISING.toInt)
    (hc : s._count < 2 ^ w) :
    (loopRun w s polls)._count =
      (s._count + risingPairs (s._last_steady_state :: polls.map Prod.fst)) % 2 ^ w := by
  induction polls generalizing s with
  | nil => simp [loopRun, risingPairs, Nat.mod_eq_of_lt hc]
  | cons p ps ih =>
    have hp : loopPromotes w s p.1 p.2 := by
      unfold loopPromotes; rw [hd]; exact Nat.zero_le _
    have hlast : (s.XRA1405_loop w p.1 p.2)._last_steady_state = p.1 := by
      rw [loop_last_steady, if_pos hp]
    have hprev : (s.XRA1405_loop w p.1 p.2)._previous_steady_state = s._last_steady_state := by
      rw [loop_previous_steady, if_pos hp]
    have hm2 : (s.XRA1405_loop w p.1 p.2)._count_mode =
        XRA1405_CountMode.XRA1405_COUNT_RISING.toInt := by rw [loop_count_mode, hm]
    have hcnt := loop_count w s p.1 p.2
    rw [countCondition_rising _ hm2] at hcnt
    unfold XRA1405_MyButton.XRA1405_checkReleased at hcnt
    rw [hlast, hprev] at hcnt
    have hlt : (s.XRA1405_loop w p.1 p.2)._count < 2 ^ w := by
      rw [hcnt]; split_ifs
      · exact Nat.mod_lt _ (two_pow_pos_w w)
      · exact hc
    rw [loopRun, ih _ (by rw [loop_debounce_time, hd]) hm2 hlt, hlast, hcnt]
    simp only [List.map_cons, risingPairs]
    by_cases h : s._last_steady_state = LOW ∧ p.1 = HIGH
    · simp only [h, and_self, decide_True, Bool.and_self, if_true]
      rw [Nat.mod_add_mod, Nat.add_assoc]
    · have hb : (decide (s._last_steady_state = LOW) && decide (p.1 = HIGH)) = false := by
        simpa using h
      simp only [hb, h, if_false, Nat.zero_add]
      rfl

theorem risingPairs_alternating (t n : Nat) :
    risingPairs (LOW :: (alternatingPollsFrom t n).map Prod.fst) = n := by
  induction n generalizing t with
  | zero => rfl
  | succ n ih =>
    have h := ih (t + 2)
    simp only [alternatingPollsFrom, List.map_cons, risingPairs]
    rw [h]
    simp [HIGH, LOW]
    omega

theorem loopRun_fresh_rising (w cs pin gm : Nat) (r : Int) (lct : Nat) (fcd : Bool)
    (polls : List (Int × Nat)) :
    (loopRun w ((XRA1405_MyButton.XRA1405_MyButton cs pin gm r lct
        fcd).XRA1405_configureCountingMode .XRA1405_COUNT_RISING) polls).XRA1405_getCount =
      risingPairs (r :: polls.map Prod.fst) % 2 ^ w := by
  have h := loopRun_debounce_zero w polls
    ((XRA1405_MyButton.XRA1405_MyButton cs pin gm r lct
        fcd).XRA1405_configureCountingMode .XRA1405_COUNT_RISING) rfl rfl (two_pow_pos_w w)
  unfold XRA1405_MyButton.XRA1405_getCount
  rw [h]
  simp [XRA1405_MyButton.XRA1405_configureCountingMode, XRA1405_MyButton.XRA1405_MyButton]

/-- Claim C5 as stated fails.  With 32-bit `unsigned long`, construction level `LOW`, debounce
0 and mode `XRA1405_COUNT_RISING`, poll `HIGH` then `LOW` 4294967296 times over (one poll per
millisecond): the sequence has 4294967296 adjacent pairs (`LOW`, `HIGH`), and
`XRA1405_getCount` is 0 afterwards, the counter having wrapped. -/
theorem C5_count_wraps :
    risingPairs (LOW :: (alternatingPollsFrom 0 4294967296).map Prod.fst) = 4294967296 ∧
      (loopRun 32 ((XRA1405_MyButton.XRA1405_MyButton 15 3 0 LOW 0
        false).XRA1405_configureCountingMode .XRA1405_COUNT_RISING)
        (alternatingPollsFrom 0 4294967296)).XRA1405_getCount = 0 := by
  refine ⟨risingPairs_alternating 0 4294967296, ?_⟩
  rw [loopRun_fresh_rising, risingPairs_alternating]
  rfl

/-- Claim C5, amended.  On a freshly constructed button with the default debounce duration 0
and mode `XRA1405_COUNT_RISING`, after polling any finite sequence of levels (at any clock
values) `XRA1405_getCount` is the number of adjacent pairs (`LOW`, `HIGH`) in the
construction-time level followed by the polled levels, modulo `2 ^ w`; so it is exactly that
number whenever the number is below `2 ^ w`, in particular for every sequence of fewer than
`2 ^ w` polls.  Falling edges add nothing. -/
theorem C5_rising_count (w cs pin gm : Nat) (r : Int) (lct : Nat) (fcd : Bool)
    (polls : List (Int × Nat)) :
    (loopRun w ((XRA1405_MyButton.XRA1405_MyButton cs pin gm r lct
        fcd).XRA1405_configureCountingMode .XRA1405_COUNT_RISING) polls).XRA1405_getCount =
      risingPairs (r :: polls.map Prod.fst) % 2 ^ w ∧
    (risingPairs (r :: polls.map Prod.fst) < 2 ^ w →
      (loopRun w ((XRA1405_MyButton.XRA1405_MyButton cs pin gm r lct
        fcd).XRA1405_configureCountingMode .XRA1405_COUNT_RISING) polls).XRA1405_getCount =
      risingPairs (r :: polls.map Prod.fst)) ∧
    (polls.length < 2 ^ w →
      (loopRun w ((XRA1405_MyButton.XRA1405_MyButton cs pin gm r lct
        fcd).XRA1405_configureCountingMode .XRA1405_COUNT_RISING) polls).XRA1405_getCount =
      risingPairs (r :: polls.map Prod.fst)) := by
  have h2 := loopRun_fresh_rising w cs pin gm r lct fcd polls
  refine ⟨h2, fun hlt => ?_, fun hlen => ?_⟩
  · rw [h2]; exact Nat.mod_eq_of_lt hlt
  · rw [h2]
    apply Nat.mod_eq_of_lt
    have := risingPairs_le r (polls.map Prod.fst)
    rw [List.length_map] at this
    omega

theorem C5_rising_count_witness :
    (loopRun 32 ((XRA1405_MyButton.XRA1405_MyButton 15 3 0 LOW 0
        false).XRA1405_configureCountingMode .XRA1405_COUNT_RISING)
      [(HIGH, 10), (LOW, 20), (HIGH, 30)]).XRA1405_getCount = 2 :=
  ((C5_rising_count 32 15 3 0 LOW 0 false [(HIGH, 10), (LOW, 20), (HIGH, 30)]).2.1
    (by decide)).trans (by decide)

/-! ## Queries, clearing and construction -/

theorem checks_false_of_eq (b : XRA1405_MyButton)
    (h : b._previous_steady_state = b._last_steady_state) :
    b.XRA1405_checkPressed = false ∧ b.XRA1405_checkReleased = false := by
  unfold XRA1405_MyButton.XRA1405_checkPressed XRA1405_MyButton.XRA1405_checkReleased
  simp only [HIGH, LOW, Bool.and_eq_false_imp, decide_eq_true_eq, decide_eq_false_iff_not]
  constructor <;> intro h1 <;> omega

/-- Claim C7.  In every state `XRA1405_checkPressed` and `XRA1405_checkReleased` are not both
true, and both are false when the previous stable level equals the stable level. -/
theorem C7_pressed_released_exclusive (b : XRA1405_MyButton) :
    ¬ (b.XRA1405_checkPressed = true ∧ b.XRA1405_checkReleased = true) ∧
    (b._previous_steady_state = b._last_steady_state →
      b.XRA1405_checkPressed = false ∧ b.XRA1405_checkReleased = false) := by
  unfold XRA1405_MyButton.XRA1405_checkPressed XRA1405_MyButton.XRA1405_checkReleased
  simp only [HIGH, LOW, Bool.and_eq_true, decide_eq_true_eq, Bool.and_eq_false_imp]
  constructor
  · rintro ⟨⟨h1, _⟩, ⟨h3, _⟩⟩
    omega
  · intro h
    constructor <;> intro h1 <;> simp only [decide_eq_false_iff_not] <;> omega

theorem C7_pressed_released_exclusive_witness :
    (XRA1405_MyButton.XRA1405_MyButton 15 3 0 HIGH 0 false).XRA1405_checkPressed = false ∧
      (XRA1405_MyButton.XRA1405_MyButton 15 3 0 HIGH 0 false).XRA1405_checkReleased = false :=
  (C7_pressed_released_exclusive (XRA1405_MyButton.XRA1405_MyButton 15 3 0 HIGH 0 false)).2 rfl

theorem loop_count_cases (w : Nat) (b : XRA1405_MyButton) (c : Int) (now : Nat) :
    (b.XRA1405_loop w c now)._count = b._count ∨
      (b.XRA1405_loop w c now)._count = (b._count + 1) % 2 ^ w := by
  rw [loop_count]
  split_ifs
  · right; rfl
  · left; rfl

/-- Claim C8.  `XRA1405_clearCount` makes `XRA1405_getCount` return 0 and leaves every other
field unchanged; after it, the first `XRA1405_loop` call that changes the count (the polls
before it leaving it unchanged) makes `XRA1405_getCount` return exactly 1. -/
theorem C8_clear_count (w : Nat) (b : XRA1405_MyButton) (polls : Nat → Int × Nat) (n : Nat) :
    b.XRA1405_clearCount.XRA1405_getCount = 0 ∧
    (b.XRA1405_clearCount._chipSelectPin = b._chipSelectPin ∧
      b.XRA1405_clearCount._button_pin = b._button_pin ∧
      b.XRA1405_clearCount._gpio_mode = b._gpio_mode ∧
      b.XRA1405_clearCount._debounce_time = b._debounce_time ∧
      b.XRA1405_clearCount._count_mode = b._count_mode ∧
      b.XRA1405_clearCount._previous_steady_state = b._previous_steady_state ∧
      b.XRA1405_clearCount._last_steady_state = b._last_steady_state ∧
      b.XRA1405_clearCount._last_flickerable_state = b._last_flickerable_state ∧
      b.XRA1405_clearCount._last_debounce_time = b._last_debounce_time ∧
      b.XRA1405_clearCount._last_click_time = b._last_click_time ∧
      b.XRA1405_clearCount._first_click_detected = b._first_click_detected ∧
      b.XRA1405_clearCount._loopIntervalMicros = b._loopIntervalMicros ∧
      b.XRA1405_clearCount._lastUpdateTime = b._lastUpdateTime) ∧
    ((∀ k, k < n → (loopAfter w b.XRA1405_clearCount polls (k + 1)).XRA1405_getCount =
        (loopAfter w b.XRA1405_clearCount polls k).XRA1405_getCount) →
      (loopAfter w b.XRA1405_clearCount polls (n + 1)).XRA1405_getCount ≠
        (loopAfter w b.XRA1405_clearCount polls n).XRA1405_getCount →
      (loopAfter w b.XRA1405_clearCount polls (n + 1)).XRA1405_getCount = 1) := by
  refine ⟨rfl, ⟨rfl, rfl, rfl, rfl, rfl, rfl, rfl, rfl, rfl, rfl, rfl, rfl, rfl⟩, ?_⟩
  intro hsame hne
  have hzero : ∀ k, k ≤ n → (loopAfter w b.XRA1405_clearCount polls k).XRA1405_getCount = 0 := by
    intro k
    induction k with
    | zero => intro _; rfl
    | succ k ih =>
      intro hk
      rw [hsame k (by omega)]
      exact ih (by omega)
  have h0 := hzero n le_rfl
  rw [h0] at hne
  unfold XRA1405_MyButton.XRA1405_getCount at h0 hne ⊢
  rcases loop_count_cases w (loopAfter w b.XRA1405_clearCount polls n) (polls n).1
    (polls n).2 with h | h
  · rw [loopAfter, h, h0] at hne
    exact absurd rfl hne
  · rw [loopAfter, h, h0] at hne ⊢
    rcases Nat.eq_zero_or_pos w with hw | hw
    · subst hw; simp at hne
    · apply Nat.mod_eq_of_lt
      exact Nat.one_lt_two_pow (by omega)

theorem C8_clear_count_witness :
    (loopAfter 32
      (loopAfter 32 (configuredButton 32 15 3 0 0 0 false 50 .XRA1405_COUNT_BOTH) scenarioPolls
        5).XRA1405_clearCount releasePolls 3).XRA1405_getCount = 1 :=
  (C8_clear_count 32
    (loopAfter 32 (configuredButton 32 15 3 0 0 0 false 50 .XRA1405_COUNT_BOTH) scenarioPolls 5)
    releasePolls 2).2.2 (by decide) (by decide)

/-- Claim C9.  For every level `r` read at construction the constructor leaves the raw, stable
and previous stable levels equal to `r`, the debounce duration 0, the count 0 and the mode
`XRA1405_COUNT_FALLING`; `XRA1405_checkPressed` and `XRA1405_checkReleased` are false right
after construction, and a first `XRA1405_loop` poll that reads `r` again leaves the count at 0
and both checks false. -/
theorem C9_constructor (w cs pin gm : Nat) (r : Int) (lct : Nat) (fcd : Bool) (now : Nat) :
    (XRA1405_MyButton.XRA1405_MyButton cs pin gm r lct fcd)._last_flickerable_state = r ∧
    (XRA1405_MyButton.XRA1405_MyButton cs pin gm r lct fcd).XRA1405_getStableState = r ∧
    (XRA1405_MyButton.XRA1405_MyButton cs pin gm r lct fcd)._previous_steady_state = r ∧
    (XRA1405_MyButton.XRA1405_MyButton cs pin gm r lct fcd)._debounce_time = 0 ∧
    (XRA1405_MyButton.XRA1405_MyButton cs pin gm r lct fcd).XRA1405_getCount = 0 ∧
    (XRA1405_MyButton.XRA1405_MyButton cs pin gm r lct fcd)._count_mode =
      XRA1405_CountMode.XRA1405_COUNT_FALLING.toInt ∧
    (XRA1405_MyButton.XRA1405_MyButton cs pin gm r lct fcd).XRA1405_checkPressed = false ∧
    (XRA1405_MyButton.XRA1405_MyButton cs pin gm r lct fcd).XRA1405_checkReleased = false ∧
    ((XRA1405_MyButton.XRA1405_MyButton cs pin gm r lct fcd).XRA1405_loop w r
      now).XRA1405_getCount = 0 ∧
    ((XRA1405_MyButton.XRA1405_MyButton cs pin gm r lct fcd).XRA1405_loop w r
      now).XRA1405_checkPressed = false ∧
    ((XRA1405_MyButton.XRA1405_MyButton cs pin gm r lct fcd).XRA1405_loop w r
      now).XRA1405_checkReleased = false := by
  have hc := checks_false_of_eq (XRA1405_MyButton.XRA1405_MyButton cs pin gm r lct fcd) rfl
  have hp : loopPromotes w (XRA1405_MyButton.XRA1405_MyButton cs pin gm r lct fcd) r now := by
    unfold loopPromotes; exact Nat.zero_le _
  have hprev : ((XRA1405_MyButton.XRA1405_MyButton cs pin gm r lct fcd).XRA1405_loop w r
      now)._previous_steady_state = r := by
    rw [loop_previous_steady, if_pos hp]; rfl
  have hlast : ((XRA1405_MyButton.XRA1405_MyButton cs pin gm r lct fcd).XRA1405_loop w r
      now)._last_steady_state = r := by
    rw [loop_last_steady, if_pos hp]
  have hc2 := checks_false_of_eq
    ((XRA1405_MyButton.XRA1405_MyButton cs pin gm r lct fcd).XRA1405_loop w r now)
      (hprev.trans hlast.symm)
  refine ⟨rfl, rfl, rfl, rfl, rfl, rfl, hc.1, hc.2, ?_, hc2.1, hc2.2⟩
  unfold XRA1405_MyButton.XRA1405_getCount
  rw [loop_count]
  have hcc : ((XRA1405_MyButton.XRA1405_MyButton cs pin gm r lct fcd).XRA1405_loop w r
      now).countCondition = false := by
    unfold XRA1405_MyButton.countCondition
    rw [hprev, hlast]; simp
  rw [hcc]; rfl

/-! ## The counter under every public operation -/

theorem checkDoubleClick_count (w : Nat) (b : XRA1405_MyButton) (c : Int) (now : Nat) :
    (b.XRA1405_checkDoubleClick w c now).1._count = b._count := by
  unfold XRA1405_MyButton.XRA1405_checkDoubleClick
  simp only
  split_ifs <;> rfl

/-- Claim C10 as stated fails: with 32-bit `unsigned long` and the counter at 4294967295, an
`XRA1405_loop` call that counts a transition leaves `XRA1405_getCount` at 0. -/
theorem C10_counter_wraps :
    PublicOp.XRA1405_loop LOW 0 ≠ PublicOp.XRA1405_clearCount ∧
      counterAtMax.XRA1405_getCount = 4294967295 ∧
      (applyOp 32 counterAtMax (.XRA1405_loop LOW 0)).XRA1405_getCount = 0 ∧
      ¬ (counterAtMax.XRA1405_getCount ≤
        (applyOp 32 counterAtMax (.XRA1405_loop LOW 0)).XRA1405_getCount) := by
  decide

/-- Claim C10, amended.  After every public operation other than `XRA1405_clearCount` the
count is the count before, or, for `XRA1405_loop` only, the count before plus 1 modulo
`2 ^ w`; so it is greater than or equal to the count before whenever that is below the
largest `unsigned long` value `2 ^ w - 1`. -/
theorem C10_counter_monotone_below_max (w : Nat) (b : XRA1405_MyButton) (op : PublicOp)
    (hop : op ≠ PublicOp.XRA1405_clearCount) :
    ((applyOp w b op).XRA1405_getCount = b.XRA1405_getCount ∨
      ((∃ c now, op = PublicOp.XRA1405_loop c now) ∧
        (applyOp w b op).XRA1405_getCount = (b.XRA1405_getCount + 1) % 2 ^ w)) ∧
    (b.XRA1405_getCount + 1 < 2 ^ w →
      b.XRA1405_getCount ≤ (applyOp w b op).XRA1405_getCount) := by
  have key : (applyOp w b op).XRA1405_getCount = b.XRA1405_getCount ∨
      ((∃ c now, op = PublicOp.XRA1405_loop c now) ∧
        (applyOp w b op).XRA1405_getCount = (b.XRA1405_getCount + 1) % 2 ^ w) := by
    unfold XRA1405_MyButton.XRA1405_getCount
    cases op with
    | XRA1405_loop c now =>
      rcases loop_count_cases w b c now with h | h
      · left; exact h
      · right; exact ⟨⟨c, now, rfl⟩, h⟩
    | XRA1405_clearCount => exact absurd rfl hop
    | XRA1405_checkDoubleClick c now => left; exact checkDoubleClick_count w b c now
    | _ => left; rfl
  refine ⟨key, fun hlt => ?_⟩
  rcases key with h | ⟨_, h⟩
  · rw [h]
  · rw [h, Nat.mod_eq_of_lt hlt]; omega

theorem C10_counter_monotone_below_max_witness :
    (configuredButton 32 15 3 0 HIGH 0 false 0 .XRA1405_COUNT_BOTH).XRA1405_getCount ≤
      (applyOp 32 (configuredButton 32 15 3 0 HIGH 0 false 0 .XRA1405_COUNT_BOTH)
        (.XRA1405_loop LOW 5)).XRA1405_getCount :=
  (C10_counter_monotone_below_max 32 (configuredButton 32 15 3 0 HIGH 0 false 0 .XRA1405_COUNT_BOTH)
    (.XRA1405_loop LOW 5) (by decide)).2 (by decide)

/-! ## Double-click detection -/

theorem checkDoubleClick_cases (w : Nat) (b : XRA1405_MyButton) (c : Int) (now : Nat)
    (hfl : b._last_flickerable_state = LOW ∨ b._last_flickerable_state = HIGH) :
    (b.XRA1405_checkDoubleClick w c now).1._last_flickerable_state = c ∧
    ((b.XRA1405_checkDoubleClick w c now).2 = true ↔
      (c = LOW ∧ b._last_flickerable_state = HIGH) ∧ b._first_click_detected = true ∧
        usub w (now % 2 ^ w) b._last_click_time ≤ DOUBLE_CLICK_INTERVAL) ∧
    ((b.XRA1405_checkDoubleClick w c now).1._first_click_detected = true →
      ((c = LOW ∧ b._last_flickerable_state = HIGH) ∧ b._first_click_detected = false ∧
        (b.XRA1405_checkDoubleClick w c now).1._last_click_time = now % 2 ^ w) ∨
      (¬ (c = LOW ∧ b._last_flickerable_state = HIGH) ∧ b._first_click_detected = true ∧
        (b.XRA1405_checkDoubleClick w c now).1._last_click_time = b._last_click_time)) := by
  have hHL : HIGH ≠ LOW := by decide
  unfold XRA1405_MyButton.XRA1405_checkDoubleClick
  simp only
  by_cases h1 : c = b._last_flickerable_state
  · have hnp : ¬ (c = LOW ∧ b._last_flickerable_state = HIGH) := by
      rintro ⟨h2, h3⟩; rw [h1] at h2; exact hHL (h3.symm.trans h2)
    simp only [h1, ne_eq, not_true_eq_false, if_false]
    refine ⟨?_, ?_, ?_⟩
    · split_ifs <;> rfl
    · rw [h1] at hnp; simp [hnp]
    · rw [h1] at hnp
      split_ifs with h4
      · simp
      · intro h5; right; exact ⟨hnp, h5, rfl⟩
  · simp only [ne_eq, h1, not_false_eq_true, if_true]
    by_cases h2 : c = LOW
    · have hfh : b._last_flickerable_state = HIGH := by
        rcases hfl with h | h
        · exact absurd (h2.trans h.symm) h1
        · exact h
      simp only [h2, if_true, hfh, and_self, true_and]
      by_cases h3 : b._first_click_detected = true
      · simp only [h3, not_true_eq_false, if_false]
        by_cases h4 : usub w (now % 2 ^ w) b._last_click_time ≤ DOUBLE_CLICK_INTERVAL
        · simp [h4]
        · have h5 : DOUBLE_CLICK_INTERVAL < usub w (now % 2 ^ w) b._last_click_time := by omega
          simp [h4, h3, h5]
      · simp only [h3, not_false_eq_true, if_true]
        simp [usub_self, DOUBLE_CLICK_INTERVAL]
    · simp only [h2, if_false, false_and, not_false_eq_true, true_and]
      refine ⟨?_, by simp, ?_⟩
      · split_ifs <;> rfl
      · split_ifs with h4
        · simp
        · intro h5; right; exact ⟨h5, rfl⟩

theorem levelBefore_two_levels (r : Int) (calls : Nat → Int × Nat)
    (hr : r = LOW ∨ r = HIGH) (hlev : ∀ i, (calls i).1 = LOW ∨ (calls i).1 = HIGH) (k : Nat) :
    levelBefore r calls k = LOW ∨ levelBefore r calls k = HIGH := by
  cases k with
  | zero => exact hr
  | succ k => exact hlev k

/-- Invariant of the double-click state after `k` calls on a button whose pending flag started
false: the tracked level is the last level read, and a pending first click was recorded by
the most recent press. -/
theorem dcAfter_invariant (w cs pin gm : Nat) (r : Int) (lct : Nat)
    (calls : Nat → Int × Nat) (hr : r = LOW ∨ r = HIGH)
    (hlev : ∀ i, (calls i).1 = LOW ∨ (calls i).1 = HIGH)
    (hwrap : ∀ i, (calls i).2 < 2 ^ w) (k : Nat) :
    (dcAfter w (XRA1405_MyButton.XRA1405_MyButton cs pin gm r lct false) calls
        k)._last_flickerable_state = levelBefore r calls k ∧
    ((dcAfter w (XRA1405_MyButton.XRA1405_MyButton cs pin gm r lct false) calls
        k)._first_click_detected = true →
      ∃ j, j < k ∧ pressAt r calls j ∧
        (dcAfter w (XRA1405_MyButton.XRA1405_MyButton cs pin gm r lct false) calls
          k)._last_click_time = (calls j).2 ∧
        ∀ m, m < k → j < m → ¬ pressAt r calls m) := by
  induction k with
  | zero =>
    refine ⟨rfl, fun h => ?_⟩
    simp [dcAfter, XRA1405_MyButton.XRA1405_MyButton] at h
  | succ k ih =>
    obtain ⟨ihfl, ihp⟩ := ih
    have hfl2 := levelBefore_two_levels r calls hr hlev k
    rw [← ihfl] at hfl2
    obtain ⟨h1, _, h3⟩ := checkDoubleClick_cases w _ (calls k).1 (calls k).2 hfl2
    refine ⟨h1, fun hp => ?_⟩
    rw [dcAfter] at hp ⊢
    rcases h3 hp with ⟨hpress, _, hl⟩ | ⟨hnp, hf, hl⟩
    · refine ⟨k, by omega, ?_, ?_, ?_⟩
      · rw [ihfl] at hpress; exact hpress
      · rw [hl, Nat.mod_eq_of_lt (hwrap k)]
      · intro m hm hkm; omega
    · obtain ⟨j, hj, hpj, hlj, hno⟩ := ihp hf
      refine ⟨j, by omega, hpj, by rw [hl, hlj], ?_⟩
      intro m hm hjm
      rcases Nat.lt_or_ge m k with hlt | hge
      · exact hno m hlt hjm
      · have hmk : m = k := by omega
        rw [hmk]; rw [ihfl] at hnp; exact hnp

/-- Claim C6 as stated fails, in two ways.  Construction level `HIGH`, pending flag false.
(a) Presses at 0, 200 and 400 ms: the third press comes 200 ms after the previous observed
press, yet its call returns false, because the second press completed a double click and
closed the pair, so the third press only opens a new one.  (b) Presses at 0, 600 and 700 ms:
the third press comes 100 ms after the previous observed press, yet its call returns false,
because the second press came after the window of the first and was dropped without opening
a pair. -/
theorem C6_third_press_not_double :
    (pressAt HIGH triplePress 4 ∧ pressAt HIGH triplePress 2 ∧ ¬ pressAt HIGH triplePress 3 ∧
      (triplePress 4).2 - (triplePress 2).2 ≤ 500 ∧
      dcResult 32 (XRA1405_MyButton.XRA1405_MyButton 15 3 0 HIGH 0 false) triplePress 2 = true ∧
      dcResult 32 (XRA1405_MyButton.XRA1405_MyButton 15 3 0 HIGH 0 false) triplePress 4 =
        false) ∧
    (pressAt HIGH latePress 4 ∧ pressAt HIGH latePress 2 ∧ ¬ pressAt HIGH latePress 3 ∧
      (latePress 4).2 - (latePress 2).2 ≤ 500 ∧
      dcResult 32 (XRA1405_MyButton.XRA1405_MyButton 15 3 0 HIGH 0 false) latePress 2 = false ∧
      dcResult 32 (XRA1405_MyButton.XRA1405_MyButton 15 3 0 HIGH 0 false) latePress 4 =
        false) := by
  decide

/-! ## Debounce duration 0 -/

theorem loopPromotes_of_zero (w : Nat) (b : XRA1405_MyButton) (c : Int) (now : Nat)
    (hd : b._debounce_time = 0) : loopPromotes w b c now := by
  unfold loopPromotes; rw [hd]; exact Nat.zero_le _

/-- Claim C11.  With debounce duration 0, in every state and for every level `c` and clock
value `now`, after `XRA1405_loop` the stable state is `c` and `_previous_steady_state` is the
stable state held before the call. -/
theorem C11_zero_debounce_no_filtering (w : Nat) (b : XRA1405_MyButton) (c : Int) (now : Nat)
    (hd : b._debounce_time = 0) :
    (b.XRA1405_loop w c now).XRA1405_getStableState = c ∧
      (b.XRA1405_loop w c now)._previous_steady_state = b.XRA1405_getStableState := by
  have hp := loopPromotes_of_zero w b c now hd
  unfold XRA1405_MyButton.XRA1405_getStableState
  rw [loop_last_steady, loop_previous_steady, if_pos hp, if_pos hp]
  exact ⟨rfl, rfl⟩

theorem C11_zero_debounce_no_filtering_witness :
    ((XRA1405_MyButton.XRA1405_MyButton 15 3 0 HIGH 0 false).XRA1405_loop 32 LOW
        12).XRA1405_getStableState = LOW ∧
      ((XRA1405_MyButton.XRA1405_MyButton 15 3 0 HIGH 0 false).XRA1405_loop 32 LOW
        12)._previous_steady_state =
      (XRA1405_MyButton.XRA1405_MyButton 15 3 0 HIGH 0 false).XRA1405_getStableState :=
  C11_zero_debounce_no_filtering 32 (XRA1405_MyButton.XRA1405_MyButton 15 3 0 HIGH 0 false) LOW 12
    rfl

/-! ## `XRA1405_checkDoubleClick` and the state of `XRA1405_loop` -/

/-- `XRA1405_loop` depends on, and determines, the members of `loopState` only. -/
theorem loop_congr (w : Nat) (s1 s2 : XRA1405_MyButton) (c : Int) (now : Nat)
    (h : loopState s1 = loopState s2) :
    loopState (s1.XRA1405_loop w c now) = loopState (s2.XRA1405_loop w c now) := by
  cases s1; cases s2
  simp only [loopState, Prod.mk.injEq] at h
  obtain ⟨h1, h2, h3, h4, h5, h6, h7⟩ := h
  subst h1 h2 h3 h4 h5 h6 h7
  unfold XRA1405_MyButton.XRA1405_loop
  simp only [XRA1405_MyButton.countCondition]
  split_ifs <;> simp_all [loopState]

theorem checkDoubleClick_flickerable (w : Nat) (b : XRA1405_MyButton) (c : Int) (now : Nat) :
    (b.XRA1405_checkDoubleClick w c now).1._last_flickerable_state = c := by
  unfold XRA1405_MyButton.XRA1405_checkDoubleClick
  simp only
  split_ifs <;> simp_all

theorem checkDoubleClick_loopState (w : Nat) (b : XRA1405_MyButton) (c : Int) (now : Nat) :
    loopState (b.XRA1405_checkDoubleClick w c now).1 =
      (b._debounce_time, b._count, b._count_mode, b._previous_steady_state,
        b._last_steady_state, c, b._last_debounce_time) := by
  have hf := checkDoubleClick_flickerable w b c now
  unfold loopState
  rw [hf]
  unfold XRA1405_MyButton.XRA1405_checkDoubleClick
  simp only
  split_ifs <;> rfl

/-- Claim C12 as stated fails.  Construction level `HIGH`, debounce 50 ms.  A call of
`XRA1405_checkDoubleClick` that reads `LOW` at 0 ms changes `_last_flickerable_state`, the raw
level of `XRA1405_loop`, from `HIGH` to `LOW`; an `XRA1405_loop` call reading `LOW` at 100 ms
then leaves the stable state `LOW` and the count 1, while without the earlier call it leaves
the stable state `HIGH` and the count 0. -/
theorem C12_shared_flickerable_state :
    (configuredButton 32 15 3 0 HIGH 0 false 50 .XRA1405_COUNT_FALLING)._last_flickerable_state =
        HIGH ∧
      ((configuredButton 32 15 3 0 HIGH 0 false 50 .XRA1405_COUNT_FALLING).XRA1405_checkDoubleClick
        32 LOW 0).1._last_flickerable_state = LOW ∧
      ((configuredButton 32 15 3 0 HIGH 0 false 50 .XRA1405_COUNT_FALLING).XRA1405_loop 32 LOW
        100).XRA1405_getStableState = HIGH ∧
      ((configuredButton 32 15 3 0 HIGH 0 false 50 .XRA1405_COUNT_FALLING).XRA1405_loop 32 LOW
        100).XRA1405_getCount = 0 ∧
      (((configuredButton 32 15 3 0 HIGH 0 false 50
        .XRA1405_COUNT_FALLING).XRA1405_checkDoubleClick 32 LOW 0).1.XRA1405_loop 32 LOW
        100).XRA1405_getStableState = LOW ∧
      (((configuredButton 32 15 3 0 HIGH 0 false 50
        .XRA1405_COUNT_FALLING).XRA1405_checkDoubleClick 32 LOW 0).1.XRA1405_loop 32 LOW
        100).XRA1405_getCount = 1 := by
  decide

/-- Claim C12, amended.  In every state and for every input, `XRA1405_checkDoubleClick`
leaves the raw-change timestamp, the stable and previous stable levels, the press count, the
debounce duration and the counting mode unchanged, and sets the raw level
`_last_flickerable_state`, the one `XRA1405_loop` uses, to the level it reads.  When that
level is the one already tracked, every later `XRA1405_loop` call leaves the same loop state
(and so the same stable state and count) whether or not `XRA1405_checkDoubleClick` was called
before it. -/
theorem C12_double_click_frame (w : Nat) (b : XRA1405_MyButton) (c : Int) (now : Nat) :
    (b.XRA1405_checkDoubleClick w c now).1._last_debounce_time = b._last_debounce_time ∧
    (b.XRA1405_checkDoubleClick w c now).1._last_steady_state = b._last_steady_state ∧
    (b.XRA1405_checkDoubleClick w c now).1._previous_steady_state = b._previous_steady_state ∧
    (b.XRA1405_checkDoubleClick w c now).1._count = b._count ∧
    (b.XRA1405_checkDoubleClick w c now).1._debounce_time = b._debounce_time ∧
    (b.XRA1405_checkDoubleClick w c now).1._count_mode = b._count_mode ∧
    (b.XRA1405_checkDoubleClick w c now).1._last_flickerable_state = c ∧
    (c = b._last_flickerable_state → ∀ c2 now2,
      loopState ((b.XRA1405_checkDoubleClick w c now).1.XRA1405_loop w c2 now2) =
        loopState (b.XRA1405_loop w c2 now2)) := by
  have h := checkDoubleClick_loopState w b c now
  simp only [loopState, Prod.mk.injEq] at h
  obtain ⟨h1, h2, h3, h4, h5, h6, h7⟩ := h
  refine ⟨h7, h5, h4, h2, h1, h3, h6, ?_⟩
  intro hc c2 now2
  apply loop_congr
  rw [checkDoubleClick_loopState, hc]
  rfl

theorem C12_double_click_frame_witness :
    loopState (((configuredButton 32 15 3 0 HIGH 0 false 50
        .XRA1405_COUNT_FALLING).XRA1405_checkDoubleClick 32 HIGH 0).1.XRA1405_loop 32 LOW 100) =
      loopState ((configuredButton 32 15 3 0 HIGH 0 false 50 .XRA1405_COUNT_FALLING).XRA1405_loop
        32 LOW 100) :=
  (C12_double_click_frame 32 (configuredButton 32 15 3 0 HIGH 0 false 50 .XRA1405_COUNT_FALLING)
    HIGH 0).2.2.2.2.2.2.2 (by decide) LOW 100

/-! ## The loop-interval setter -/

theorem sameExceptLoopInterval_iff (b1 b2 : XRA1405_MyButton) :
    sameExceptLoopInterval b1 b2 ↔
      b2 = { b1 with _loopIntervalMicros := b2._loopIntervalMicros } := by
  cases b1; cases b2
  simp only [sameExceptLoopInterval, XRA1405_MyButton.mk.injEq]
  constructor
  · rintro ⟨h1, h2, h3, h4, h5, h6, h7, h8, h9, h10, h11, h12, h13⟩
    simp [h1, h2, h3, h4, h5, h6, h7, h8, h9, h10, h11, h12, h13]
  · rintro ⟨h1, h2, h3, h4, h5, h6, h7, h8, h9, h10, h11, h12, _, h13⟩
    simp [h1, h2, h3, h4, h5, h6, h7, h8, h9, h10, h11, h12, h13]

theorem loop_loopInterval (w : Nat) (b : XRA1405_MyButton) (x : Nat) (c : Int) (now : Nat) :
    XRA1405_MyButton.XRA1405_loop w { b with _loopIntervalMicros := x } c now =
      { b.XRA1405_loop w c now with _loopIntervalMicros := x } := by
  unfold XRA1405_MyButton.XRA1405_loop
  simp only [XRA1405_MyButton.countCondition]
  split_ifs <;> rfl

theorem checkDoubleClick_loopInterval (w : Nat) (b : XRA1405_MyButton) (x : Nat) (c : Int)
    (now : Nat) :
    XRA1405_MyButton.XRA1405_checkDoubleClick w { b with _loopIntervalMicros := x } c now =
      ({ (b.XRA1405_checkDoubleClick w c now).1 with _loopIntervalMicros := x },
        (b.XRA1405_checkDoubleClick w c now).2) := by
  unfold XRA1405_MyButton.XRA1405_checkDoubleClick
  simp only
  split_ifs <;> rfl

theorem sameExceptLoopInterval_update (b : XRA1405_MyButton) (x : Nat) :
    sameExceptLoopInterval b { b with _loopIntervalMicros := x } :=
  ⟨rfl, rfl, rfl, rfl, rfl, rfl, rfl, rfl, rfl, rfl, rfl, rfl, rfl⟩

theorem sameExceptLoopInterval_step (w : Nat) (b1 b2 : XRA1405_MyButton) (op : PublicOp)
    (h : sameExceptLoopInterval b1 b2) :
    opReturn w b1 op = opReturn w b2 op ∧
      sameExceptLoopInterval (applyOp w b1 op) (applyOp w b2 op) := by
  obtain ⟨x, hx⟩ : ∃ x, b2 = { b1 with _loopIntervalMicros := x } :=
    ⟨_, (sameExceptLoopInterval_iff b1 b2).mp h⟩
  subst hx
  cases op with
  | XRA1405_loop c now =>
    refine ⟨rfl, ?_⟩
    simp only [applyOp]
    rw [loop_loopInterval w b1 x c now]
    exact sameExceptLoopInterval_update _ x
  | XRA1405_checkDoubleClick c now =>
    simp only [applyOp, opReturn]
    rw [checkDoubleClick_loopInterval w b1 x c now]
    exact ⟨rfl, sameExceptLoopInterval_update _ x⟩
  | _ => exact ⟨rfl, rfl, rfl, rfl, rfl, rfl, rfl, rfl, rfl, rfl, rfl, rfl, rfl, rfl⟩

theorem sameExceptLoopInterval_runOps (w : Nat) (ops : List PublicOp)
    (b1 b2 : XRA1405_MyButton) (h : sameExceptLoopInterval b1 b2) :
    (runOps w b1 ops).2 = (runOps w b2 ops).2 ∧
      sameExceptLoopInterval (runOps w b1 ops).1 (runOps w b2 ops).1 := by
  induction ops generalizing b1 b2 with
  | nil => exact ⟨rfl, h⟩
  | cons op ops ih =>
    obtain ⟨hr, hs⟩ := sameExceptLoopInterval_step w b1 b2 op h
    obtain ⟨ih1, ih2⟩ := ih _ _ hs
    simp only [runOps]
    exact ⟨by rw [hr, ih1], ih2⟩

/-- Claim C13.  `XRA1405_setLoopIntervalMicros` changes no data member other than
`_loopIntervalMicros`; and from two states that differ at most in `_loopIntervalMicros`, the
same sequence of public calls with the same inputs returns the same values, call by call
(`XRA1405_checkDoubleClick`, `XRA1405_checkPressed`, `XRA1405_checkReleased`,
`XRA1405_getStableState`, `XRA1405_getCount`, ...), and leaves states that again differ at
most in `_loopIntervalMicros`. -/
theorem C13_loop_interval_inert (w : Nat) (b b1 b2 : XRA1405_MyButton) (interval : Nat)
    (ops : List PublicOp) :
    sameExceptLoopInterval b (b.XRA1405_setLoopIntervalMicros w interval) ∧
    (runOps w (b.XRA1405_setLoopIntervalMicros w interval) ops).2 = (runOps w b ops).2 ∧
    (sameExceptLoopInterval b1 b2 →
      (runOps w b1 ops).2 = (runOps w b2 ops).2 ∧
        sameExceptLoopInterval (runOps w b1 ops).1 (runOps w b2 ops).1) := by
  have hset : sameExceptLoopInterval b (b.XRA1405_setLoopIntervalMicros w interval) :=
    ⟨rfl, rfl, rfl, rfl, rfl, rfl, rfl, rfl, rfl, rfl, rfl, rfl, rfl⟩
  exact ⟨hset, (sameExceptLoopInterval_runOps w ops _ _ hset).1.symm,
    fun h => sameExceptLoopInterval_runOps w ops b1 b2 h⟩

theorem C13_loop_interval_inert_witness :
    (runOps 32 (configuredButton 32 15 3 0 HIGH 0 false 0 .XRA1405_COUNT_FALLING)
        [.XRA1405_loop LOW 5, .XRA1405_checkPressed, .XRA1405_getCount,
          .XRA1405_getStableState]).2 =
      [.void, .bool true, .count 1, .level LOW] ∧
    (runOps 32 ((configuredButton 32 15 3 0 HIGH 0 false 0
        .XRA1405_COUNT_FALLING).XRA1405_setLoopIntervalMicros 32 250000)
        [.XRA1405_loop LOW 5, .XRA1405_checkPressed, .XRA1405_getCount,
          .XRA1405_getStableState]).2 =
      [.void, .bool true, .count 1, .level LOW] := by
  have h := (C13_loop_interval_inert 32
    (configuredButton 32 15 3 0 HIGH 0 false 0 .XRA1405_COUNT_FALLING)
    (configuredButton 32 15 3 0 HIGH 0 false 0 .XRA1405_COUNT_FALLING)
    ((configuredButton 32 15 3 0 HIGH 0 false 0
      .XRA1405_COUNT_FALLING).XRA1405_setLoopIntervalMicros 32 250000) 250000
    [.XRA1405_loop LOW 5, .XRA1405_checkPressed, .XRA1405_getCount,
      .XRA1405_getStableState]).2.2 (by decide)
  have h0 : (runOps 32 (configuredButton 32 15 3 0 HIGH 0 false 0 .XRA1405_COUNT_FALLING)
        [.XRA1405_loop LOW 5, .XRA1405_checkPressed, .XRA1405_getCount,
          .XRA1405_getStableState]).2 =
      [.void, .bool true, .count 1, .level LOW] := by decide
  exact ⟨h0, h.1.symm.trans h0⟩

/-! ## One call of `XRA1405_checkDoubleClick`, in any state -/

/-- The returned value, the pending flag and the click timestamp after one call, by cases on
whether the call observes a change to `LOW`, on the pending flag and on the elapsed time. -/
theorem checkDoubleClick_step (w : Nat) (b : XRA1405_MyButton) (c : Int) (now : Nat) :
    ((b.XRA1405_checkDoubleClick w c now).2 = true ↔
      (c ≠ b._last_flickerable_state ∧ c = LOW) ∧ b._first_click_detected = true ∧
        usub w (now % 2 ^ w) b._last_click_time ≤ DOUBLE_CLICK_INTERVAL) ∧
    ((b.XRA1405_checkDoubleClick w c now).1._first_click_detected = true ↔
      ((c ≠ b._last_flickerable_state ∧ c = LOW) ∧ b._first_click_detected = false) ∨
      (¬ (c ≠ b._last_flickerable_state ∧ c = LOW) ∧ b._first_click_detected = true ∧
        usub w (now % 2 ^ w) b._last_click_time ≤ DOUBLE_CLICK_INTERVAL)) ∧
    (b.XRA1405_checkDoubleClick w c now).1._last_click_time =
      (if (c ≠ b._last_flickerable_state ∧ c = LOW) ∧ b._first_click_detected = false
        then now % 2 ^ w else b._last_click_time) := by
  have h0 : usub w (now % 2 ^ w) (now % 2 ^ w) = 0 := usub_self w _
  unfold XRA1405_MyButton.XRA1405_checkDoubleClick
  by_cases h1 : c = b._last_flickerable_state
  · by_cases h3 : b._first_click_detected = true
    · by_cases h4 : usub w (now % 2 ^ w) b._last_click_time ≤ DOUBLE_CLICK_INTERVAL
      · have h5 : ¬ DOUBLE_CLICK_INTERVAL < usub w (now % 2 ^ w) b._last_click_time := by omega
        simp [h1, h3, h4, h5]
      · have h5 : DOUBLE_CLICK_INTERVAL < usub w (now % 2 ^ w) b._last_click_time := by omega
        simp [h1, h3, h4, h5]
    · simp [h1, h3]
  · by_cases h2 : c = LOW
    · subst h2
      by_cases h3 : b._first_click_detected = true
      · by_cases h4 : usub w (now % 2 ^ w) b._last_click_time ≤ DOUBLE_CLICK_INTERVAL
        · simp [h1, h3, h4]
        · have h5 : DOUBLE_CLICK_INTERVAL < usub w (now % 2 ^ w) b._last_click_time := by omega
          simp [h1, h3, h4, h5]
      · simp [h1, h3, h0, DOUBLE_CLICK_INTERVAL]
    · by_cases h3 : b._first_click_detected = true
      · by_cases h4 : usub w (now % 2 ^ w) b._last_click_time ≤ DOUBLE_CLICK_INTERVAL
        · have h5 : ¬ DOUBLE_CLICK_INTERVAL < usub w (now % 2 ^ w) b._last_click_time := by
            omega
          simp [h1, h2, h3, h4, h5]
        · have h5 : DOUBLE_CLICK_INTERVAL < usub w (now % 2 ^ w) b._last_click_time := by omega
          simp [h1, h2, h3, h4, h5]
      · simp [h1, h2, h3]

/-- Claim C14 (double-click soundness).  In every state and for every input, if
`XRA1405_checkDoubleClick` returns true then the level read is `LOW`, the tracked level
differed from it, a first click was pending before the call, the elapsed time since its
timestamp (the unsigned difference the code computes; the plain difference when the
timestamp is not later than a non-wrapped clock value) is at most 500 ms, and the pending
flag is false after the call. -/
theorem C14_double_click_sound (w : Nat) (b : XRA1405_MyButton) (c : Int) (now : Nat)
    (h : (b.XRA1405_checkDoubleClick w c now).2 = true) :
    c = LOW ∧ b._last_flickerable_state ≠ c ∧ b._first_click_detected = true ∧
      usub w (now % 2 ^ w) b._last_click_time ≤ DOUBLE_CLICK_INTERVAL ∧
      (now < 2 ^ w → b._last_click_time ≤ now →
        now - b._last_click_time ≤ DOUBLE_CLICK_INTERVAL) ∧
      (b.XRA1405_checkDoubleClick w c now).1._first_click_detected = false := by
  obtain ⟨h1, h2, _⟩ := checkDoubleClick_step w b c now
  obtain ⟨⟨hne, hlow⟩, hf, hel⟩ := h1.mp h
  refine ⟨hlow, fun e => hne e.symm, hf, hel, ?_, ?_⟩
  · intro hnow hle
    rw [Nat.mod_eq_of_lt hnow, usub_of_le w _ _ hnow hle] at hel
    exact hel
  · by_contra hcon
    have hcon2 : (b.XRA1405_checkDoubleClick w c now).1._first_click_detected = true := by
      simpa using hcon
    rcases h2.mp hcon2 with ⟨_, hff⟩ | ⟨hnp, _, _⟩
    · rw [hf] at hff; exact absurd hff (by decide)
    · exact hnp ⟨hne, hlow⟩

theorem C14_double_click_sound_witness :
    (pressesApart300 2).1 = LOW ∧
      (dcAfter 32 (XRA1405_MyButton.XRA1405_MyButton 15 3 0 HIGH 0 false) pressesApart300
        2)._first_click_detected = true ∧
      ((dcAfter 32 (XRA1405_MyButton.XRA1405_MyButton 15 3 0 HIGH 0 false) pressesApart300
        2).XRA1405_checkDoubleClick 32 (pressesApart300 2).1
          (pressesApart300 2).2).1._first_click_detected = false :=
  have h := C14_double_click_sound 32
    (dcAfter 32 (XRA1405_MyButton.XRA1405_MyButton 15 3 0 HIGH 0 false) pressesApart300 2)
    (pressesApart300 2).1 (pressesApart300 2).2 (by decide)
  ⟨h.1, h.2.2.1, h.2.2.2.2.2⟩

/-- Claim C15 (timeout invariant).  In every state and for every input, if the pending flag
is true after `XRA1405_checkDoubleClick` returns, then the elapsed time from the recorded
click timestamp to `now` is at most 500 ms; and a first click that was pending with more
than 500 ms elapsed is no longer pending after the call. -/
theorem C15_timeout_invariant (w : Nat) (b : XRA1405_MyButton) (c : Int) (now : Nat) :
    ((b.XRA1405_checkDoubleClick w c now).1._first_click_detected = true →
      usub w (now % 2 ^ w) (b.XRA1405_checkDoubleClick w c now).1._last_click_time ≤
        DOUBLE_CLICK_INTERVAL) ∧
    (b._first_click_detected = true →
      DOUBLE_CLICK_INTERVAL < usub w (now % 2 ^ w) b._last_click_time →
      (b.XRA1405_checkDoubleClick w c now).1._first_click_detected = false) := by
  obtain ⟨_, h2, h3⟩ := checkDoubleClick_step w b c now
  constructor
  · intro hp
    rw [h3]
    rcases h2.mp hp with hc | ⟨hnp, _, hel⟩
    · rw [if_pos hc, usub_self]; exact Nat.zero_le _
    · rw [if_neg (fun hc => hnp hc.1)]; exact hel
  · intro hf hlate
    by_contra hcon
    have hcon2 : (b.XRA1405_checkDoubleClick w c now).1._first_click_detected = true := by
      simpa using hcon
    rcases h2.mp hcon2 with ⟨_, hff⟩ | ⟨_, _, hel⟩
    · rw [hf] at hff; exact absurd hff (by decide)
    · omega

theorem C15_timeout_invariant_witness :
    usub 32 ((pressesApart600 1).2 % 2 ^ 32)
        ((dcAfter 32 (XRA1405_MyButton.XRA1405_MyButton 15 3 0 HIGH 0 false) pressesApart600
          1).XRA1405_checkDoubleClick 32 (pressesApart600 1).1
            (pressesApart600 1).2).1._last_click_time ≤ DOUBLE_CLICK_INTERVAL ∧
      ((dcAfter 32 (XRA1405_MyButton.XRA1405_MyButton 15 3 0 HIGH 0 false) pressesApart600
        2).XRA1405_checkDoubleClick 32 HIGH 700).1._first_click_detected = false :=
  ⟨(C15_timeout_invariant 32
      (dcAfter 32 (XRA1405_MyButton.XRA1405_MyButton 15 3 0 HIGH 0 false) pressesApart600 1)
      (pressesApart600 1).1 (pressesApart600 1).2).1 (by decide),
    (C15_timeout_invariant 32
      (dcAfter 32 (XRA1405_MyButton.XRA1405_MyButton 15 3 0 HIGH 0 false) pressesApart600 2)
      HIGH 700).2 (by decide) (by decide)⟩

/-- Claim C16 (a late second press is dropped).  In every state in which a first click is
pending and more than 500 ms have elapsed since its timestamp, a call reading any level `c`,
in particular one that observes a press (`LOW` read while the tracked level is `HIGH`),
returns false, leaves the click timestamp as it was, so does not record `now`, and leaves
the pending flag false. -/
theorem C16_late_press_dropped (w : Nat) (b : XRA1405_MyButton) (c : Int) (now : Nat)
    (hf : b._first_click_detected = true)
    (hlate : DOUBLE_CLICK_INTERVAL < usub w (now % 2 ^ w) b._last_click_time) :
    (b.XRA1405_checkDoubleClick w c now).2 = false ∧
      (b.XRA1405_checkDoubleClick w c now).1._last_click_time = b._last_click_time ∧
      (b.XRA1405_checkDoubleClick w c now).1._last_click_time ≠ now % 2 ^ w ∧
      (b.XRA1405_checkDoubleClick w c now).1._first_click_detected = false := by
  obtain ⟨h1, h2, h3⟩ := checkDoubleClick_step w b c now
  have hlct : (b.XRA1405_checkDoubleClick w c now).1._last_click_time = b._last_click_time := by
    rw [h3, if_neg]
    rintro ⟨_, hff⟩
    rw [hf] at hff; exact absurd hff (by decide)
  refine ⟨?_, hlct, ?_, ?_⟩
  · by_contra hcon
    have hcon2 : (b.XRA1405_checkDoubleClick w c now).2 = true := by simpa using hcon
    obtain ⟨_, _, hel⟩ := h1.mp hcon2
    omega
  · rw [hlct]
    intro heq
    rw [heq, usub_self] at hlate
    exact absurd hlate (Nat.not_lt_zero _)
  · by_contra hcon
    have hcon2 : (b.XRA1405_checkDoubleClick w c now).1._first_click_detected = true := by
      simpa using hcon
    rcases h2.mp hcon2 with ⟨_, hff⟩ | ⟨_, _, hel⟩
    · rw [hf] at hff; exact absurd hff (by decide)
    · omega

theorem C16_late_press_dropped_witness :
    (dcAfter 32 (XRA1405_MyButton.XRA1405_MyButton 15 3 0 HIGH 0 false) pressesApart600
        2)._last_flickerable_state = HIGH ∧
    ((dcAfter 32 (XRA1405_MyButton.XRA1405_MyButton 15 3 0 HIGH 0 false) pressesApart600
        2).XRA1405_checkDoubleClick 32 LOW 600).2 = false ∧
      ((dcAfter 32 (XRA1405_MyButton.XRA1405_MyButton 15 3 0 HIGH 0 false) pressesApart600
        2).XRA1405_checkDoubleClick 32 LOW 600).1._last_click_time = 0 ∧
      ((dcAfter 32 (XRA1405_MyButton.XRA1405_MyButton 15 3 0 HIGH 0 false) pressesApart600
        2).XRA1405_checkDoubleClick 32 LOW 600).1._first_click_detected = false :=
  have h := C16_late_press_dropped 32
    (dcAfter 32 (XRA1405_MyButton.XRA1405_MyButton 15 3 0 HIGH 0 false) pressesApart600 2)
    LOW 600 (by decide) (by decide)
  ⟨by decide, h.1, h.2.1.trans (by decide), h.2.2.2⟩

/-! ## The previous stable level -/

/-- Claim C17 as stated fails.  Construction level `HIGH`, debounce 50 ms, polls reading `LOW`
at 0, 50 and 60 ms.  The stable state changes to `LOW` at the second poll and
`XRA1405_checkPressed` is true after it; the third poll leaves the stable state `LOW`, yet
after it `_previous_steady_state` is `LOW`, not the level `HIGH` held before the change, and
`XRA1405_checkPressed` is false. -/
theorem C17_previous_lags_one_promotion :
    (loopRun 32 (configuredButton 32 15 3 0 HIGH 0 false 50 .XRA1405_COUNT_FALLING)
        [(LOW, 0)]).XRA1405_getStableState = HIGH ∧
      (loopRun 32 (configuredButton 32 15 3 0 HIGH 0 false 50 .XRA1405_COUNT_FALLING)
        [(LOW, 0), (LOW, 50)]).XRA1405_getStableState = LOW ∧
      (loopRun 32 (configuredButton 32 15 3 0 HIGH 0 false 50 .XRA1405_COUNT_FALLING)
        [(LOW, 0), (LOW, 50)]).XRA1405_checkPressed = true ∧
      (loopRun 32 (configuredButton 32 15 3 0 HIGH 0 false 50 .XRA1405_COUNT_FALLING)
        [(LOW, 0), (LOW, 50), (LOW, 60)]).XRA1405_getStableState = LOW ∧
      (loopRun 32 (configuredButton 32 15 3 0 HIGH 0 false 50 .XRA1405_COUNT_FALLING)
        [(LOW, 0), (LOW, 50), (LOW, 60)])._previous_steady_state = LOW ∧
      (loopRun 32 (configuredButton 32 15 3 0 HIGH 0 false 50 .XRA1405_COUNT_FALLING)
        [(LOW, 0), (LOW, 50), (LOW, 60)]).XRA1405_checkPressed = false := by
  decide

theorem loopAfter_since_promotion (w : Nat) (s : XRA1405_MyButton) (polls : Nat → Int × Nat)
    (i : Nat) (hp : loopPromotes w (loopAfter w s polls i) (polls i).1 (polls i).2) (j : Nat)
    (hno : ∀ k, i < k → k ≤ i + j →
      ¬ loopPromotes w (loopAfter w s polls k) (polls k).1 (polls k).2) :
    (loopAfter w s polls (i + j + 1))._previous_steady_state =
        (loopAfter w s polls i)._last_steady_state ∧
      (loopAfter w s polls (i + j + 1))._last_steady_state = (polls i).1 := by
  induction j with
  | zero =>
    rw [Nat.add_zero, loopAfter, loop_previous_steady, loop_last_steady, if_pos hp, if_pos hp]
    exact ⟨rfl, rfl⟩
  | succ j ih =>
    obtain ⟨ih1, ih2⟩ := ih (fun k h1 h2 => hno k h1 (by omega))
    have hnp := hno (i + j + 1) (by omega) (by omega)
    have e : i + (j + 1) + 1 = (i + j + 1) + 1 := by omega
    rw [e, loopAfter, loop_previous_steady, loop_last_steady, if_neg hnp, if_neg hnp]
    exact ⟨ih1, ih2⟩

theorem loopAfter_no_promotion (w : Nat) (s : XRA1405_MyButton) (polls : Nat → Int × Nat)
    (n : Nat)
    (hno : ∀ k, k < n → ¬ loopPromotes w (loopAfter w s polls k) (polls k).1 (polls k).2) :
    (loopAfter w s polls n)._previous_steady_state = s._previous_steady_state ∧
      (loopAfter w s polls n)._last_steady_state = s._last_steady_state := by
  induction n with
  | zero => exact ⟨rfl, rfl⟩
  | succ n ih =>
    obtain ⟨ih1, ih2⟩ := ih (fun k hk => hno k (by omega))
    have hnp := hno n (by omega)
    rw [loopAfter, loop_previous_steady, loop_last_steady, if_neg hnp, if_neg hnp]
    exact ⟨ih1, ih2⟩

/-- Claim C17, amended.  Along every sequence of `XRA1405_loop` polls, the previous stable
level lags by one poll that passes the debounce test, not by one change of value: (1) if
poll `i` passes the debounce test and the polls after it up to poll `n` do not, then after
poll `n` `_previous_steady_state` is the stable state held before poll `i` and the stable
state is the level poll `i` read; (2) while no poll passes the test both keep their initial
values (the construction-time level on a fresh button); (3) a poll that passes the test and
reads the level that is already stable leaves `XRA1405_checkPressed` and
`XRA1405_checkReleased` false. -/
theorem C17_previous_lags_promoting_poll (w : Nat) (s : XRA1405_MyButton)
    (polls : Nat → Int × Nat) (i n : Nat) :
    (i ≤ n → loopPromotes w (loopAfter w s polls i) (polls i).1 (polls i).2 →
      (∀ k, i < k → k ≤ n →
        ¬ loopPromotes w (loopAfter w s polls k) (polls k).1 (polls k).2) →
      (loopAfter w s polls (n + 1))._previous_steady_state =
          (loopAfter w s polls i).XRA1405_getStableState ∧
        (loopAfter w s polls (n + 1)).XRA1405_getStableState = (polls i).1) ∧
    ((∀ k, k < n → ¬ loopPromotes w (loopAfter w s polls k) (polls k).1 (polls k).2) →
      (loopAfter w s polls n)._previous_steady_state = s._previous_steady_state ∧
        (loopAfter w s polls n).XRA1405_getStableState = s.XRA1405_getStableState) ∧
    (loopPromotes w (loopAfter w s polls n) (polls n).1 (polls n).2 →
      (polls n).1 = (loopAfter w s polls n).XRA1405_getStableState →
      (loopAfter w s polls (n + 1)).XRA1405_checkPressed = false ∧
        (loopAfter w s polls (n + 1)).XRA1405_checkReleased = false) := by
  unfold XRA1405_MyButton.XRA1405_getStableState
  refine ⟨?_, loopAfter_no_promotion w s polls n, ?_⟩
  · intro hin hp hno
    obtain ⟨j, rfl⟩ : ∃ j, n = i + j := ⟨n - i, by omega⟩
    exact loopAfter_since_promotion w s polls i hp j hno
  · intro hp hsame
    apply checks_false_of_eq
    rw [loopAfter, loop_previous_steady, loop_last_steady, if_pos hp, if_pos hp]
    exact hsame.symm

theorem C17_previous_lags_promoting_poll_witness :
    ((loopAfter 32 (configuredButton 32 15 3 0 HIGH 0 false 50 .XRA1405_COUNT_FALLING)
        (fun k => (LOW, 50 * k)) 2)._previous_steady_state = HIGH ∧
      (loopAfter 32 (configuredButton 32 15 3 0 HIGH 0 false 50 .XRA1405_COUNT_FALLING)
        (fun k => (LOW, 50 * k)) 2).XRA1405_getStableState = LOW) ∧
    ((loopAfter 32 (configuredButton 32 15 3 0 HIGH 0 false 50 .XRA1405_COUNT_FALLING)
        (fun k => (LOW, 50 * k)) 3).XRA1405_checkPressed = false ∧
      (loopAfter 32 (configuredButton 32 15 3 0 HIGH 0 false 50 .XRA1405_COUNT_FALLING)
        (fun k => (LOW, 50 * k)) 3).XRA1405_checkReleased = false) :=
  ⟨(C17_previous_lags_promoting_poll 32
      (configuredButton 32 15 3 0 HIGH 0 false 50 .XRA1405_COUNT_FALLING)
      (fun k => (LOW, 50 * k)) 1 1).1 (by decide) (by decide) (by omega),
    (C17_previous_lags_promoting_poll 32
      (configuredButton 32 15 3 0 HIGH 0 false 50 .XRA1405_COUNT_FALLING)
      (fun k => (LOW, 50 * k)) 2 2).2.2 (by decide) (by decide)⟩

/-! ## Construction and the double-click members -/

/-- Claim C18, evaluated where it fails.  Two constructions with the same arguments and the
same construction-time read `HIGH`, whose unassigned members `_first_click_detected` hold
false and true: the first `XRA1405_checkDoubleClick` call, reading `LOW` at 100 ms (a first
press), returns false on the one and true on the other.  The constructor leaves both
double-click members at the values they happened to have. -/
theorem C18_double_click_members_unassigned :
    ((XRA1405_MyButton.XRA1405_MyButton 15 3 0 HIGH 0 false).XRA1405_checkDoubleClick 32 LOW
        100).2 = false ∧
      ((XRA1405_MyButton.XRA1405_MyButton 15 3 0 HIGH 0 true).XRA1405_checkDoubleClick 32 LOW
        100).2 = true ∧
      (XRA1405_MyButton.XRA1405_MyButton 15 3 0 HIGH 0 true)._first_click_detected = true ∧
      (XRA1405_MyButton.XRA1405_MyButton 15 3 0 HIGH 7 true)._last_click_time = 7 := by
  decide

/-! ## The two logical levels -/

theorem levelsTwoLevel_step (w : Nat) (b : XRA1405_MyButton) (op : PublicOp)
    (hb : levelsTwoLevel b) (hop : opReadsTwoLevel op) : levelsTwoLevel (applyOp w b op) := by
  obtain ⟨h1, h2, h3⟩ := hb
  cases op with
  | XRA1405_loop c now =>
    simp only [applyOp, levelsTwoLevel]
    rw [loop_flickerable, loop_last_steady, loop_previous_steady]
    refine ⟨hop, ?_, ?_⟩ <;> split_ifs
    · exact hop
    · exact h2
    · exact h2
    · exact h3
  | XRA1405_checkDoubleClick c now =>
    have h := checkDoubleClick_loopState w b c now
    simp only [loopState, Prod.mk.injEq] at h
    obtain ⟨_, _, _, h4, h5, h6, _⟩ := h
    simp only [applyOp, levelsTwoLevel]
    rw [h4, h5, h6]
    exact ⟨hop, h2, h3⟩
  | _ => exact ⟨h1, h2, h3⟩

theorem levelsTwoLevel_runOps (w : Nat) (ops : List PublicOp) (b : XRA1405_MyButton)
    (hb : levelsTwoLevel b) (hops : ∀ op, op ∈ ops → opReadsTwoLevel op) :
    levelsTwoLevel (runOps w b ops).1 := by
  induction ops generalizing b with
  | nil => exact hb
  | cons op ops ih =>
    simp only [runOps]
    exact ih _ (levelsTwoLevel_step w b op hb (hops op (List.mem_cons_self _ _)))
      (fun o ho => hops o (List.mem_cons_of_mem _ ho))

/-- Claim C19 (two-level invariant).  If the construction-time read and the pin read of every
later public call return `LOW` or `HIGH`, then right after construction and after every
sequence of public calls the raw level, the stable level and the previous stable level are
each `LOW` or `HIGH`. -/
theorem C19_two_level_invariant (w cs pin gm : Nat) (r : Int) (lct : Nat) (fcd : Bool)
    (ops : List PublicOp) (hr : r = LOW ∨ r = HIGH)
    (hops : ∀ op, op ∈ ops → opReadsTwoLevel op) :
    ((runOps w (XRA1405_MyButton.XRA1405_MyButton cs pin gm r lct fcd)
        ops).1._last_flickerable_state = LOW ∨
      (runOps w (XRA1405_MyButton.XRA1405_MyButton cs pin gm r lct fcd)
        ops).1._last_flickerable_state = HIGH) ∧
    ((runOps w (XRA1405_MyButton.XRA1405_MyButton cs pin gm r lct fcd)
        ops).1.XRA1405_getStableState = LOW ∨
      (runOps w (XRA1405_MyButton.XRA1405_MyButton cs pin gm r lct fcd)
        ops).1.XRA1405_getStableState = HIGH) ∧
    ((runOps w (XRA1405_MyButton.XRA1405_MyButton cs pin gm r lct fcd)
        ops).1._previous_steady_state = LOW ∨
      (runOps w (XRA1405_MyButton.XRA1405_MyButton cs pin gm r lct fcd)
        ops).1._previous_steady_state = HIGH) :=
  levelsTwoLevel_runOps w ops (XRA1405_MyButton.XRA1405_MyButton cs pin gm r lct fcd)
    ⟨hr, hr, hr⟩ hops

theorem C19_two_level_invariant_witness :
    ((runOps 32 (XRA1405_MyButton.XRA1405_MyButton 15 3 0 HIGH 0 false)
        [.XRA1405_configureDebounceDuration 50, .XRA1405_loop LOW 0, .XRA1405_loop LOW 50,
          .XRA1405_checkDoubleClick HIGH 60, .XRA1405_clearCount]).1._last_flickerable_state =
        LOW ∨
      (runOps 32 (XRA1405_MyButton.XRA1405_MyButton 15 3 0 HIGH 0 false)
        [.XRA1405_configureDebounceDuration 50, .XRA1405_loop LOW 0, .XRA1405_loop LOW 50,
          .XRA1405_checkDoubleClick HIGH 60, .XRA1405_clearCount]).1._last_flickerable_state =
        HIGH) :=
  (C19_two_level_invariant 32 15 3 0 HIGH 0 false
    [.XRA1405_configureDebounceDuration 50, .XRA1405_loop LOW 0, .XRA1405_loop LOW 50,
      .XRA1405_checkDoubleClick HIGH 60, .XRA1405_clearCount] (by decide) (by decide)).1

/-! ## Clock wraparound -/

/-- The unsigned difference of two clock readings is the true elapsed time when that is below
`2 ^ w`, whether or not the counter wrapped in between. -/
theorem usub_wrap (w t0 e : Nat) (he : e < 2 ^ w) :
    usub w ((t0 + e) % 2 ^ w) (t0 % 2 ^ w) = e := by
  unfold usub
  have hM := two_pow_pos_w w
  have hq : t0 % 2 ^ w < 2 ^ w := Nat.mod_lt _ hM
  rw [Nat.mod_mod, Nat.mod_mod, Nat.add_mod t0 e, Nat.mod_eq_of_lt he]
  generalize t0 % 2 ^ w = q at hq
  generalize 2 ^ w = M at *
  rcases Nat.lt_or_ge (q + e) M with h | h
  · rw [Nat.mod_eq_of_lt h]
    have e1 : q + e + (M - q) = e + M := by omega
    rw [e1, Nat.add_mod_right, Nat.mod_eq_of_lt he]
  · have h2 : (q + e - M) % M = q + e - M := Nat.mod_eq_of_lt (by omega)
    rw [Nat.mod_eq_sub_mod h, h2]
    have e1 : q + e - M + (M - q) = e := by omega
    rw [e1, Nat.mod_eq_of_lt he]

/-- Claim C20 (clock wraparound).  Let a timestamp be recorded at true clock value `t0` (so
stored as `t0 % 2 ^ w`) and let a call be made at true clock value `t0 + e` with
`e < 2 ^ w`, whether or not the `w`-bit counter wrapped in between.  Then the unsigned
difference is `e`; `XRA1405_loop`, reading the tracked level, promotes exactly when
`e ≥` the debounce duration; and `XRA1405_checkDoubleClick`, with a first click pending,
reports a double click exactly when it observes a change to `LOW` and `e ≤ 500`, and keeps
the click pending exactly when it observes no such change and `e ≤ 500` (it drops it when
`e > 500`). -/
theorem C20_clock_wraparound (w : Nat) (b : XRA1405_MyButton) (c : Int) (t0 e : Nat)
    (he : e < 2 ^ w) :
    usub w ((t0 + e) % 2 ^ w) (t0 % 2 ^ w) = e ∧
    (b._last_debounce_time = t0 % 2 ^ w → c = b._last_flickerable_state →
      (b.XRA1405_loop w c (t0 + e)).XRA1405_getStableState =
          (if b._debounce_time ≤ e then c else b.XRA1405_getStableState) ∧
        (b.XRA1405_loop w c (t0 + e))._previous_steady_state =
          (if b._debounce_time ≤ e then b.XRA1405_getStableState
            else b._previous_steady_state)) ∧
    (b._last_click_time = t0 % 2 ^ w → b._first_click_detected = true →
      ((b.XRA1405_checkDoubleClick w c (t0 + e)).2 = true ↔
          (c ≠ b._last_flickerable_state ∧ c = LOW) ∧ e ≤ DOUBLE_CLICK_INTERVAL) ∧
        ((b.XRA1405_checkDoubleClick w c (t0 + e)).1._first_click_detected = true ↔
          ¬ (c ≠ b._last_flickerable_state ∧ c = LOW) ∧ e ≤ DOUBLE_CLICK_INTERVAL) ∧
        (DOUBLE_CLICK_INTERVAL < e →
          (b.XRA1405_checkDoubleClick w c (t0 + e)).1._first_click_detected = false)) := by
  have hu := usub_wrap w t0 e he
  refine ⟨hu, ?_, ?_⟩
  · intro hldt hc
    have hp : loopPromotes w b c (t0 + e) ↔ b._debounce_time ≤ e := by
      unfold loopPromotes
      rw [if_neg (by simpa using hc), hldt, hu]
    unfold XRA1405_MyButton.XRA1405_getStableState
    rw [loop_last_steady, loop_previous_steady]
    by_cases hd : b._debounce_time ≤ e
    · rw [if_pos (hp.mpr hd), if_pos (hp.mpr hd), if_pos hd, if_pos hd]
      exact ⟨rfl, rfl⟩
    · rw [if_neg (fun h => hd (hp.mp h)), if_neg (fun h => hd (hp.mp h)), if_neg hd, if_neg hd]
      exact ⟨rfl, rfl⟩
  · intro hlct hf
    obtain ⟨h1, h2, _⟩ := checkDoubleClick_step w b c (t0 + e)
    rw [hlct, hu] at h1 h2
    have h3 : (b.XRA1405_checkDoubleClick w c (t0 + e)).1._first_click_detected = true ↔
        ¬ (c ≠ b._last_flickerable_state ∧ c = LOW) ∧ e ≤ DOUBLE_CLICK_INTERVAL := by
      rw [h2]
      constructor
      · rintro (⟨_, hff⟩ | ⟨hnp, _, hel⟩)
        · rw [hf] at hff; exact absurd hff (by decide)
        · exact ⟨hnp, hel⟩
      · rintro ⟨hnp, hel⟩
        exact Or.inr ⟨hnp, hf, hel⟩
    refine ⟨?_, h3, ?_⟩
    · rw [h1]
      constructor
      · rintro ⟨hp, _, hel⟩; exact ⟨hp, hel⟩
      · rintro ⟨hp, hel⟩; exact ⟨hp, hf, hel⟩
    · intro hlate
      by_contra hcon
      have hcon2 : (b.XRA1405_checkDoubleClick w c (t0 + e)).1._first_click_detected = true := by
        simpa using hcon
      have := (h3.mp hcon2).2
      omega

theorem C20_clock_wraparound_witness :
    (4294967200 + 196) % 2 ^ 32 = 100 ∧
      usub 32 ((4294967200 + 196) % 2 ^ 32) (4294967200 % 2 ^ 32) = 196 ∧
      (beforeWrap.XRA1405_loop 32 HIGH (4294967200 + 196)).XRA1405_getStableState = HIGH ∧
      ((beforeWrap.XRA1405_checkDoubleClick 32 LOW (4294967200 + 196)).2 = true) :=
  have h := C20_clock_wraparound 32 beforeWrap HIGH 4294967200 196 (by decide)
  have h2 := C20_clock_wraparound 32 beforeWrap LOW 4294967200 196 (by decide)
  ⟨by decide, h.1, ((h.2.1 (by decide) (by decide)).1).trans (by decide),
    ((h2.2.2 (by decide) (by decide)).1).mpr (by decide)⟩

/-! ## Double clicks as pairs of presses -/

/-- On a button whose pending flag started false, the pending flag and the click timestamp
after `k` calls are the open first click of the reference. -/
theorem dcAfter_specOpenClick (w cs pin gm : Nat) (r : Int) (lct : Nat)
    (calls : Nat → Int × Nat) (hr : r = LOW ∨ r = HIGH)
    (hlev : ∀ i, (calls i).1 = LOW ∨ (calls i).1 = HIGH)
    (hmono : ∀ i j, i ≤ j → (calls i).2 ≤ (calls j).2)
    (hwrap : ∀ i, (calls i).2 < 2 ^ w) (k : Nat) :
    specOpenClick r calls k =
      if (dcAfter w (XRA1405_MyButton.XRA1405_MyButton cs pin gm r lct false) calls
          k)._first_click_detected = true
        then some (dcAfter w (XRA1405_MyButton.XRA1405_MyButton cs pin gm r lct false) calls
          k)._last_click_time
        else none := by
  induction k with
  | zero => simp [specOpenClick, dcAfter, XRA1405_MyButton.XRA1405_MyButton]
  | succ k ih =>
    obtain ⟨hfl, hpend⟩ := dcAfter_invariant w cs pin gm r lct calls hr hlev hwrap k
    have hpress : ((calls k).1 ≠ (dcAfter w (XRA1405_MyButton.XRA1405_MyButton cs pin gm r lct
        false) calls k)._last_flickerable_state ∧ (calls k).1 = LOW) ↔ pressAt r calls k := by
      unfold pressAt
      rw [hfl]
      constructor
      · rintro ⟨hne, hlow⟩
        refine ⟨hlow, ?_⟩
        rcases levelBefore_two_levels r calls hr hlev k with h | h
        · exact absurd (hlow.trans h.symm) hne
        · exact h
      · rintro ⟨hlow, hhigh⟩
        refine ⟨?_, hlow⟩
        rw [hlow, hhigh]; decide
    obtain ⟨_, h2, h3⟩ := checkDoubleClick_step w _ (calls k).1 (calls k).2
    rw [hpress, Nat.mod_eq_of_lt (hwrap k)] at h2
    rw [Nat.mod_eq_of_lt (hwrap k)] at h3
    simp only [hpress] at h3
    simp only [specOpenClick, dcAfter]
    rw [ih]
    by_cases hf : (dcAfter w (XRA1405_MyButton.XRA1405_MyButton cs pin gm r lct false) calls
        k)._first_click_detected = true
    · obtain ⟨j, hj, _, hl, _⟩ := hpend hf
      have hu : usub w (calls k).2 (dcAfter w (XRA1405_MyButton.XRA1405_MyButton cs pin gm r lct
          false) calls k)._last_click_time = (calls k).2 - (dcAfter w
          (XRA1405_MyButton.XRA1405_MyButton cs pin gm r lct false) calls k)._last_click_time := by
        apply usub_of_le w _ _ (hwrap k)
        rw [hl]; exact hmono j k (by omega)
      rw [hu] at h2
      have hff : ¬ (dcAfter w (XRA1405_MyButton.XRA1405_MyButton cs pin gm r lct false) calls
          k)._first_click_detected = false := by rw [hf]; decide
      rw [if_neg (fun h => hff h.2)] at h3
      simp only [hf, if_true]
      by_cases hl2 : DOUBLE_CLICK_INTERVAL < (calls k).2 - (dcAfter w
          (XRA1405_MyButton.XRA1405_MyButton cs pin gm r lct false) calls k)._last_click_time
      · have hnf : ¬ ((dcAfter w (XRA1405_MyButton.XRA1405_MyButton cs pin gm r lct false) calls
            k).XRA1405_checkDoubleClick w (calls k).1 (calls k).2).1._first_click_detected =
            true := by
          intro h
          rcases h2.mp h with ⟨_, h'⟩ | ⟨_, _, h'⟩
          · exact hff h'
          · omega
        rw [if_pos hl2, if_neg hnf]
      · rw [if_neg hl2]
        by_cases hp : pressAt r calls k
        · have hnf : ¬ ((dcAfter w (XRA1405_MyButton.XRA1405_MyButton cs pin gm r lct false)
              calls k).XRA1405_checkDoubleClick w (calls k).1
              (calls k).2).1._first_click_detected = true := by
            intro h
            rcases h2.mp h with ⟨_, h'⟩ | ⟨h', _, _⟩
            · exact hff h'
            · exact h' hp
          rw [if_pos hp, if_neg hnf]
        · have hyes : ((dcAfter w (XRA1405_MyButton.XRA1405_MyButton cs pin gm r lct false)
              calls k).XRA1405_checkDoubleClick w (calls k).1
              (calls k).2).1._first_click_detected = true :=
            h2.mpr (Or.inr ⟨hp, hf, by omega⟩)
          rw [if_neg hp, if_pos hyes, h3]
    · have hff : (dcAfter w (XRA1405_MyButton.XRA1405_MyButton cs pin gm r lct false) calls
          k)._first_click_detected = false := by simpa using hf
      simp only [hf, Bool.false_eq_true, if_false]
      by_cases hp : pressAt r calls k
      · have hyes : ((dcAfter w (XRA1405_MyButton.XRA1405_MyButton cs pin gm r lct false)
            calls k).XRA1405_checkDoubleClick w (calls k).1
            (calls k).2).1._first_click_detected = true :=
          h2.mpr (Or.inl ⟨hp, hff⟩)
        rw [if_pos (And.intro hp hff)] at h3
        rw [if_pos hp, if_pos hyes, h3]
      · have hnf : ¬ ((dcAfter w (XRA1405_MyButton.XRA1405_MyButton cs pin gm r lct false)
            calls k).XRA1405_checkDoubleClick w (calls k).1
            (calls k).2).1._first_click_detected = true := by
          intro h
          rcases h2.mp h with ⟨h', _⟩ | ⟨_, h', _⟩
          · exact hp h'
          · exact hf h'
        rw [if_neg hp, if_neg hnf]

theorem specOpenClick_stays_none (r : Int) (calls : Nat → Int × Nat) (m : Nat)
    (h : specOpenClick r calls m = none) (j : Nat)
    (hno : ∀ i, m ≤ i → i < m + j → ¬ pressAt r calls i) :
    specOpenClick r calls (m + j) = none := by
  induction j with
  | zero => exact h
  | succ j ih =>
    have h1 := ih (fun i h1 h2 => hno i h1 (by omega))
    have h2 := hno (m + j) (by omega) (by omega)
    have e : m + (j + 1) = m + j + 1 := by omega
    rw [e]
    simp only [specOpenClick, h1, h2, if_false]

theorem specOpenClick_stays_open (r : Int) (calls : Nat → Int × Nat) (m t : Nat)
    (h : specOpenClick r calls m = some t) (j : Nat)
    (hno : ∀ i, m ≤ i → i < m + j → ¬ pressAt r calls i)
    (hwin : ∀ i, m ≤ i → i < m + j → (calls i).2 - t ≤ DOUBLE_CLICK_INTERVAL) :
    specOpenClick r calls (m + j) = some t := by
  induction j with
  | zero => exact h
  | succ j ih =>
    have h1 := ih (fun i h1 h2 => hno i h1 (by omega)) (fun i h1 h2 => hwin i h1 (by omega))
    have h2 := hno (m + j) (by omega) (by omega)
    have h3 : ¬ DOUBLE_CLICK_INTERVAL < (calls (m + j)).2 - t := by
      have := hwin (m + j) (by omega) (by omega)
      omega
    have e : m + (j + 1) = m + j + 1 := by omega
    rw [e]
    simp only [specOpenClick, h1, h2, h3, if_false]

theorem dcResult_iff_pending (w cs pin gm : Nat) (r : Int) (lct : Nat)
    (calls : Nat → Int × Nat) (hr : r = LOW ∨ r = HIGH)
    (hlev : ∀ i, (calls i).1 = LOW ∨ (calls i).1 = HIGH)
    (hmono : ∀ i j, i ≤ j → (calls i).2 ≤ (calls j).2)
    (hwrap : ∀ i, (calls i).2 < 2 ^ w) (k : Nat) :
    dcResult w (XRA1405_MyButton.XRA1405_MyButton cs pin gm r lct false) calls k = true ↔
      pressAt r calls k ∧
        (dcAfter w (XRA1405_MyButton.XRA1405_MyButton cs pin gm r lct false) calls
          k)._first_click_detected = true ∧
        (calls k).2 - (dcAfter w (XRA1405_MyButton.XRA1405_MyButton cs pin gm r lct false) calls
          k)._last_click_time ≤ DOUBLE_CLICK_INTERVAL := by
  obtain ⟨hfl, hpend⟩ := dcAfter_invariant w cs pin gm r lct calls hr hlev hwrap k
  have hfl2 := levelBefore_two_levels r calls hr hlev k
  rw [← hfl] at hfl2
  obtain ⟨_, hres, _⟩ := checkDoubleClick_cases w _ (calls k).1 (calls k).2 hfl2
  have husub : (dcAfter w (XRA1405_MyButton.XRA1405_MyButton cs pin gm r lct false) calls
        k)._first_click_detected = true →
      usub w ((calls k).2 % 2 ^ w)
        (dcAfter w (XRA1405_MyButton.XRA1405_MyButton cs pin gm r lct false) calls
          k)._last_click_time =
      (calls k).2 - (dcAfter w (XRA1405_MyButton.XRA1405_MyButton cs pin gm r lct false) calls
          k)._last_click_time := by
    intro hp
    obtain ⟨j, hj, _, hl, _⟩ := hpend hp
    rw [Nat.mod_eq_of_lt (hwrap k)]
    apply usub_of_le w _ _ (hwrap k)
    rw [hl]; exact hmono j k (by omega)
  unfold dcResult pressAt
  rw [hres, hfl]
  constructor
  · rintro ⟨hp, hf, hu⟩
    rw [husub hf] at hu
    exact ⟨hp, hf, hu⟩
  · rintro ⟨hp, hf, hu⟩
    rw [← husub hf] at hu
    exact ⟨hp, hf, hu⟩

/-- A call returns true exactly when it observes a press while the reference has a first
click open at most 500 ms earlier. -/
theorem dcResult_iff_specOpenClick (w cs pin gm : Nat) (r : Int) (lct : Nat)
    (calls : Nat → Int × Nat) (hr : r = LOW ∨ r = HIGH)
    (hlev : ∀ i, (calls i).1 = LOW ∨ (calls i).1 = HIGH)
    (hmono : ∀ i j, i ≤ j → (calls i).2 ≤ (calls j).2)
    (hwrap : ∀ i, (calls i).2 < 2 ^ w) (k : Nat) :
    dcResult w (XRA1405_MyButton.XRA1405_MyButton cs pin gm r lct false) calls k = true ↔
      pressAt r calls k ∧ ∃ t1, specOpenClick r calls k = some t1 ∧
        (calls k).2 - t1 ≤ DOUBLE_CLICK_INTERVAL := by
  rw [dcResult_iff_pending w cs pin gm r lct calls hr hlev hmono hwrap k,
    dcAfter_specOpenClick w cs pin gm r lct calls hr hlev hmono hwrap k]
  constructor
  · rintro ⟨hp, hf, hu⟩
    exact ⟨hp, _, by rw [if_pos hf], hu⟩
  · rintro ⟨hp, t1, hs, hu⟩
    by_cases hf : (dcAfter w (XRA1405_MyButton.XRA1405_MyButton cs pin gm r lct false) calls
        k)._first_click_detected = true
    · rw [if_pos hf] at hs
      have ht : (dcAfter w (XRA1405_MyButton.XRA1405_MyButton cs pin gm r lct false) calls
          k)._last_click_time = t1 := Option.some.inj hs
      exact ⟨hp, hf, by rw [ht]; exact hu⟩
    · rw [if_neg hf] at hs
      exact absurd hs (by simp)

theorem dcResult_previous_press (w cs pin gm : Nat) (r : Int) (lct : Nat)
    (calls : Nat → Int × Nat) (hr : r = LOW ∨ r = HIGH)
    (hlev : ∀ i, (calls i).1 = LOW ∨ (calls i).1 = HIGH)
    (hmono : ∀ i j, i ≤ j → (calls i).2 ≤ (calls j).2)
    (hwrap : ∀ i, (calls i).2 < 2 ^ w) (k : Nat)
    (ht : dcResult w (XRA1405_MyButton.XRA1405_MyButton cs pin gm r lct false) calls k = true) :
    ∃ j, j < k ∧ pressAt r calls j ∧ (∀ m, m < k → j < m → ¬ pressAt r calls m) ∧
      (calls k).2 - (calls j).2 ≤ DOUBLE_CLICK_INTERVAL := by
  obtain ⟨_, hpend⟩ := dcAfter_invariant w cs pin gm r lct calls hr hlev hwrap k
  obtain ⟨_, hf, hu⟩ := (dcResult_iff_pending w cs pin gm r lct calls hr hlev hmono hwrap k).mp ht
  obtain ⟨j, hj, hpj, hl, hno⟩ := hpend hf
  exact ⟨j, hj, hpj, hno, by rw [← hl]; exact hu⟩

/-- After a call that returned true the reference has no first click open. -/
theorem specOpenClick_after_double (w cs pin gm : Nat) (r : Int) (lct : Nat)
    (calls : Nat → Int × Nat) (hr : r = LOW ∨ r = HIGH)
    (hlev : ∀ i, (calls i).1 = LOW ∨ (calls i).1 = HIGH)
    (hmono : ∀ i j, i ≤ j → (calls i).2 ≤ (calls j).2)
    (hwrap : ∀ i, (calls i).2 < 2 ^ w) (k : Nat)
    (ht : dcResult w (XRA1405_MyButton.XRA1405_MyButton cs pin gm r lct false) calls k = true) :
    specOpenClick r calls (k + 1) = none := by
  obtain ⟨hp, t1, hs, hu⟩ :=
    (dcResult_iff_specOpenClick w cs pin gm r lct calls hr hlev hmono hwrap k).mp ht
  have h3 : ¬ DOUBLE_CLICK_INTERVAL < (calls k).2 - t1 := by omega
  simp only [specOpenClick, hs, hp, h3, if_false, if_true]

/-- Claim C6, amended.  On a freshly constructed button whose pending flag starts false, used
only through `XRA1405_checkDoubleClick` with levels `LOW`/`HIGH` and non-decreasing clock
values, presses pair up and a call returns true exactly for the second press of a pair:
(1) a call returns true if and only if it observes a press while a first click is open at
most 500 ms earlier, where, by `specOpenClick`, a press observed while none is open opens
one, and an open one is closed by the next press or by any call more than 500 ms after it;
(2) when a call returns true, the previous observed press happened at most 500 ms earlier;
(3) a press with no press before it returns false; (4) a press more than 500 ms after the
previous observed press returns false; (5) if the previous observed press was the first
press observed, or the first one after a call that returned true, the press returns true if
and only if it comes at most 500 ms after it; (6) after a call that returned true, every
call up to and including the next press returns false. -/
theorem C6_double_click_pairs (w cs pin gm : Nat) (r : Int) (lct : Nat)
    (calls : Nat → Int × Nat) (hr : r = LOW ∨ r = HIGH)
    (hlev : ∀ i, (calls i).1 = LOW ∨ (calls i).1 = HIGH)
    (hmono : ∀ i j, i ≤ j → (calls i).2 ≤ (calls j).2)
    (hwrap : ∀ i, (calls i).2 < 2 ^ w) (k : Nat) :
    (dcResult w (XRA1405_MyButton.XRA1405_MyButton cs pin gm r lct false) calls k = true ↔
      pressAt r calls k ∧ ∃ t1, specOpenClick r calls k = some t1 ∧
        (calls k).2 - t1 ≤ DOUBLE_CLICK_INTERVAL) ∧
    (dcResult w (XRA1405_MyButton.XRA1405_MyButton cs pin gm r lct false) calls k = true →
      ∃ j, j < k ∧ pressAt r calls j ∧ (∀ m, m < k → j < m → ¬ pressAt r calls m) ∧
        (calls k).2 - (calls j).2 ≤ DOUBLE_CLICK_INTERVAL) ∧
    ((∀ j, j < k → ¬ pressAt r calls j) →
      dcResult w (XRA1405_MyButton.XRA1405_MyButton cs pin gm r lct false) calls k = false) ∧
    (∀ j, j < k → pressAt r calls j → (∀ m, m < k → j < m → ¬ pressAt r calls m) →
      DOUBLE_CLICK_INTERVAL < (calls k).2 - (calls j).2 →
      dcResult w (XRA1405_MyButton.XRA1405_MyButton cs pin gm r lct false) calls k = false) ∧
    (∀ j, j < k → pressAt r calls j → pressAt r calls k →
      (∀ m, m < k → j < m → ¬ pressAt r calls m) →
      ((∀ i, i < j → ¬ pressAt r calls i) ∨
        ∃ i, i < j ∧
          dcResult w (XRA1405_MyButton.XRA1405_MyButton cs pin gm r lct false) calls i = true ∧
          ∀ m, m < j → i < m → ¬ pressAt r calls m) →
      (dcResult w (XRA1405_MyButton.XRA1405_MyButton cs pin gm r lct false) calls k = true ↔
        (calls k).2 - (calls j).2 ≤ DOUBLE_CLICK_INTERVAL)) ∧
    (∀ j, j < k → (∀ m, m < k → j < m → ¬ pressAt r calls m) →
      dcResult w (XRA1405_MyButton.XRA1405_MyButton cs pin gm r lct false) calls j = true →
      dcResult w (XRA1405_MyButton.XRA1405_MyButton cs pin gm r lct false) calls k = false) := by
  have h1 := dcResult_iff_specOpenClick w cs pin gm r lct calls hr hlev hmono hwrap
  have h2 := dcResult_previous_press w cs pin gm r lct calls hr hlev hmono hwrap
  have hlate : ∀ j, j < k → pressAt r calls j → (∀ m, m < k → j < m → ¬ pressAt r calls m) →
      DOUBLE_CLICK_INTERVAL < (calls k).2 - (calls j).2 →
      dcResult w (XRA1405_MyButton.XRA1405_MyButton cs pin gm r lct false) calls k = false := by
    intro j hj hpj hno hlate
    by_contra hne
    obtain ⟨j2, hj2, hpj2, hno2, hgap⟩ := h2 k (by simpa using hne)
    have hjj : j = j2 := by
      rcases Nat.lt_trichotomy j j2 with h | h | h
      · exact absurd hpj2 (hno j2 hj2 h)
      · exact h
      · exact absurd hpj (hno2 j hj h)
    rw [← hjj] at hgap
    omega
  refine ⟨h1 k, h2 k, ?_, hlate, ?_, ?_⟩
  · intro hnone
    by_contra hne
    obtain ⟨j, hj, hpj, _, _⟩ := h2 k (by simpa using hne)
    exact hnone j hj hpj
  · intro j hj hpj hpk hno hopen
    have hsj : specOpenClick r calls j = none := by
      rcases hopen with hfirst | ⟨i, hi, hti, hnoi⟩
      · have := specOpenClick_stays_none r calls 0 rfl j
          (fun i _ hi => hfirst i (by omega))
        rwa [Nat.zero_add] at this
      · have hs := specOpenClick_after_double w cs pin gm r lct calls hr hlev hmono hwrap i hti
        have := specOpenClick_stays_none r calls (i + 1) hs (j - (i + 1))
          (fun m h1 h2 => hnoi m (by omega) (by omega))
        have e : i + 1 + (j - (i + 1)) = j := by omega
        rwa [e] at this
    have hsj1 : specOpenClick r calls (j + 1) = some (calls j).2 := by
      simp only [specOpenClick, hsj, hpj, if_true]
    constructor
    · intro ht
      by_contra hgap
      have := hlate j hj hpj hno (by omega)
      rw [ht] at this
      exact absurd this (by decide)
    · intro hgap
      have hs := specOpenClick_stays_open r calls (j + 1) (calls j).2 hsj1 (k - (j + 1))
        (fun m h1 h2 => hno m (by omega) (by omega))
        (fun m h1 h2 => by
          have := hmono m k (by omega)
          omega)
      have e : j + 1 + (k - (j + 1)) = k := by omega
      rw [e] at hs
      exact (h1 k).mpr ⟨hpk, _, hs, hgap⟩
  · intro j hj hno htj
    have hs := specOpenClick_after_double w cs pin gm r lct calls hr hlev hmono hwrap j htj
    have hk := specOpenClick_stays_none r calls (j + 1) hs (k - (j + 1))
      (fun m h1 h2 => hno m (by omega) (by omega))
    have e : j + 1 + (k - (j + 1)) = k := by omega
    rw [e] at hk
    by_contra hne
    obtain ⟨_, t1, hst, _⟩ := (h1 k).mp (by simpa using hne)
    rw [hk] at hst
    exact absurd hst (by simp)

theorem C6_double_click_pairs_witness :
    dcResult 32 (XRA1405_MyButton.XRA1405_MyButton 15 3 0 HIGH 0 false) pressesApart300 2 = true ∧
      dcResult 32 (XRA1405_MyButton.XRA1405_MyButton 15 3 0 HIGH 0 false) pressesApart600 0 =
        false ∧
      dcResult 32 (XRA1405_MyButton.XRA1405_MyButton 15 3 0 HIGH 0 false) pressesApart600 2 =
        false ∧
      dcResult 32 (XRA1405_MyButton.XRA1405_MyButton 15 3 0 HIGH 0 false) triplePress 2 = true ∧
      dcResult 32 (XRA1405_MyButton.XRA1405_MyButton 15 3 0 HIGH 0 false) triplePress 4 =
        false := by
  have lev3 : ∀ i, (pressesApart300 i).1 = LOW ∨ (pressesApart300 i).1 = HIGH := by
    intro i; simp only [pressesApart300]; split_ifs <;> decide
  have mono3 : ∀ i j, i ≤ j → (pressesApart300 i).2 ≤ (pressesApart300 j).2 := by
    intro i j h; simp only [pressesApart300]; split_ifs <;> omega
  have wrap3 : ∀ i, (pressesApart300 i).2 < 2 ^ 32 := by
    intro i; simp only [pressesApart300]; split_ifs <;> decide
  have lev6 : ∀ i, (pressesApart600 i).1 = LOW ∨ (pressesApart600 i).1 = HIGH := by
    intro i; simp only [pressesApart600]; split_ifs <;> decide
  have mono6 : ∀ i j, i ≤ j → (pressesApart600 i).2 ≤ (pressesApart600 j).2 := by
    intro i j h; simp only [pressesApart600]; split_ifs <;> omega
  have wrap6 : ∀ i, (pressesApart600 i).2 < 2 ^ 32 := by
    intro i; simp only [pressesApart600]; split_ifs <;> decide
  have levt : ∀ i, (triplePress i).1 = LOW ∨ (triplePress i).1 = HIGH := by
    intro i; simp only [triplePress]; split_ifs <;> decide
  have monot : ∀ i j, i ≤ j → (triplePress i).2 ≤ (triplePress j).2 := by
    intro i j h; simp only [triplePress]; split_ifs <;> omega
  have wrapt : ∀ i, (triplePress i).2 < 2 ^ 32 := by
    intro i; simp only [triplePress]; split_ifs <;> decide
  have ht2 := ((C6_double_click_pairs 32 15 3 0 HIGH 0 triplePress (by decide) levt monot wrapt
      2).2.2.2.2.1 0 (by decide) (by decide) (by decide) (by decide)
      (Or.inl (by decide))).mpr (by decide)
  exact ⟨((C6_double_click_pairs 32 15 3 0 HIGH 0 pressesApart300 (by decide) lev3 mono3 wrap3
      2).2.2.2.2.1 0 (by decide) (by decide) (by decide) (by decide)
      (Or.inl (by decide))).mpr (by decide),
    (C6_double_click_pairs 32 15 3 0 HIGH 0 pressesApart600 (by decide) lev6 mono6 wrap6
      0).2.2.1 (by decide),
    (C6_double_click_pairs 32 15 3 0 HIGH 0 pressesApart600 (by decide) lev6 mono6 wrap6
      2).2.2.2.1 0 (by decide) (by decide) (by decide) (by decide),
    ht2,
    (C6_double_click_pairs 32 15 3 0 HIGH 0 triplePress (by decide) levt monot wrapt
      4).2.2.2.2.2 2 (by decide) (by decide) ht2⟩
